import Mathlib

/-!
# oVirt builder of the forklift controller

A shallow embedding of `pkg/controller/plan/adapter/ovirt/builder.go`.

Conventions of the embedding.

* Go strings are `String`; `int64` values are `Int` (no operation of the builder overflows:
  sizes are only copied or divided by a positive constant).
* A Go pointer that may be nil is an `Option`.  A nil-pointer dereference is a run-time panic;
  the functions that can panic return an `Option` whose `none` is the panic.
* `Inventory.Find` is a function into `Except Err _`: either the entity or the error.
* `liberr.Wrap` and `path.Join` belong to libraries outside the repository; they are fields of
  the builder, and no property of them is assumed.
* Slices are `List`s.  `DataVolumes` writes the defaulted modes through `&dsMapIn[i]`, i.e. into
  the plan's own storage mapping, so the mapping after the call is part of its result.
* `fmt.Sprintf("vol-%v", i)` on an `int` is `"vol-" ++ toString i` (decimal).
-/

set_option autoImplicit false

namespace Ovirt

/-! ## Constants -/

/-- BIOS type `ClusterDefault`. -/
def ClusterDefault : String := "cluster_default"
/-- BIOS type `Q35Ovmf`. -/
def Q35Ovmf : String := "q35_ovmf"

/-- Bus type `VirtioScsi`. -/
def VirtioScsi : String := "virtio_scsi"
/-- Bus type `Virtio`. -/
def Virtio : String := "virtio"
/-- Bus type `Sata`. -/
def Sata : String := "sata"
/-- Bus type `Scsi`. -/
def Scsi : String := "scsi"

/-- Input type `Tablet`. -/
def Tablet : String := "tablet"

/-- Network type `Pod`. -/
def Pod : String := "pod"
/-- Network type `Multus`. -/
def Multus : String := "multus"

/-- Kubernetes constant `core.PersistentVolumeFilesystem`. -/
def PersistentVolumeFilesystem : String := "Filesystem"
/-- Kubernetes constant `core.ReadWriteOnce`. -/
def ReadWriteOnce : String := "ReadWriteOnce"
/-- Kubernetes constant `core.ResourceStorage`. -/
def ResourceStorage : String := "storage"
/-- Kubernetes constant `core.ResourceMemory`. -/
def ResourceMemory : String := "memory"
/-- Kubernetes constant `resource.BinarySI`. -/
def BinarySI : String := "BinarySI"

/-! ## Errors and references -/

/-- Errors: a failed lookup, or an error that carries a cause and a context (the shape of the
errors of the library `liberr`). -/
inductive Err where
  | lookup (what : String)
  | wrap (cause : Err) (context : List String)
deriving DecidableEq, Repr

/-- The reference `ref.Ref`. -/
structure Ref where
  ID : String := ""
  Name : String := ""
deriving DecidableEq, Repr

/-- Rendering `ref.Ref.String()`, used only inside error contexts. -/
def Ref.String (x : Ref) : String := "(id:" ++ x.ID ++ " name:" ++ x.Name ++ ")"

/-! ## Source inventory model (`model.Workload` and friends) -/

/-- A disk of the source inventory. -/
structure Disk where
  ID : String := ""
  ProvisionedSize : Int := 0
  StorageDomain : String := ""
deriving DecidableEq, Repr

/-- A disk attachment of a VM: the interface hint and the disk. -/
structure DiskAttachment where
  Interface : String := ""
  Disk : Disk := {}
deriving DecidableEq, Repr

/-- A NIC profile: the network it belongs to and the pass-through flag. -/
structure NICProfile where
  Network : String := ""
  PassThrough : Bool := false
deriving DecidableEq, Repr

/-- A NIC of a VM. -/
structure NIC where
  Mac : String := ""
  Profile : NICProfile := {}
deriving DecidableEq, Repr

/-- The cluster record of a VM. -/
structure Cluster where
  BiosType : String := ""
deriving DecidableEq, Repr

/-- The VM record `model.Workload`; the default value is Go's zero value. -/
structure Workload where
  ID : String := ""
  BIOS : String := ""
  SerialNumber : String := ""
  OSType : String := ""
  Timezone : String := ""
  Memory : Int := 0
  CpuSockets : Int := 0
  CpuCores : Int := 0
  CpuThreads : Int := 0
  Cluster : Cluster := {}
  DiskAttachments : List DiskAttachment := []
  NICs : List NIC := []
deriving DecidableEq, Repr

/-- A storage domain of the source inventory. -/
structure StorageDomain where
  ID : String := ""
deriving DecidableEq, Repr

/-- A network of the source inventory. -/
structure Network where
  ID : String := ""
deriving DecidableEq, Repr

/-- The Kubernetes object inside a destination storage class. -/
structure StorageClassObject where
  Provisioner : String := ""
deriving DecidableEq, Repr

/-- A storage class of the destination inventory (`ocp.StorageClass`). -/
structure StorageClass where
  Object : StorageClassObject := {}
deriving DecidableEq, Repr

/-! ## Plan mappings (`api.StoragePair`, `api.NetworkPair`) -/

/-- The destination of a storage mapping entry. -/
structure DestinationStorage where
  StorageClass : String := ""
  VolumeMode : String := ""
  AccessMode : String := ""
deriving DecidableEq, Repr

/-- One entry of the destination storage mapping. -/
structure StoragePair where
  Source : Ref := {}
  Destination : DestinationStorage := {}
deriving DecidableEq, Repr

/-- The destination of a network mapping entry. -/
structure DestinationNetwork where
  Type_ : String := ""
  Namespace : String := ""
  Name : String := ""
deriving DecidableEq, Repr

/-- One entry of the destination network mapping. -/
structure NetworkPair where
  Source : Ref := {}
  Destination : DestinationNetwork := {}
deriving DecidableEq, Repr

/-! ## Provisioners

The type `api.Provisioner` and its methods `VolumeMode` and `AccessMode` are declared outside
the builder; the builder only calls them.  They are taken as parameters: a provisioner is its
method `VolumeMode`, whose result carries a name and the method `AccessMode`. -/

/-- An access mode record; the builder reads its `Name`. -/
structure AccessModeRecord where
  Name : String := ""
deriving DecidableEq, Repr

/-- A volume mode record: its `Name` and its method `AccessMode(name)`. -/
structure VolumeModeRecord where
  Name : String
  AccessMode : String → AccessModeRecord

/-- A provisioner: its method `VolumeMode(name)`. -/
structure Provisioner where
  VolumeMode : String → VolumeModeRecord

/-! ## Produced objects (CDI and KubeVirt types) -/

/-- The imageio source of a data volume. -/
structure DataVolumeSourceImageIO where
  URL : String := ""
  DiskID : String := ""
  SecretRef : String := ""
  CertConfigMap : String := ""
deriving DecidableEq, Repr

/-- The source of a data volume; `Imageio` is a pointer. -/
structure DataVolumeSource where
  Imageio : Option DataVolumeSourceImageIO := none
deriving DecidableEq, Repr

/-- A quantity built by `resource.NewQuantity(value, format)`. -/
structure Quantity where
  value : Int
  format : String
deriving DecidableEq, Repr

/-- The resource requirements: the list of requests (resource name, quantity). -/
structure ResourceRequirements where
  Requests : List (String × Quantity) := []
deriving DecidableEq, Repr

/-- The storage part of a data volume spec. -/
structure StorageSpec where
  AccessModes : List String := []
  VolumeMode : Option String := none
  Resources : ResourceRequirements := {}
  StorageClassName : Option String := none
deriving DecidableEq, Repr

/-- The spec `cdi.DataVolumeSpec`. -/
structure DataVolumeSpec where
  Source : DataVolumeSource := {}
  Storage : Option StorageSpec := none
deriving DecidableEq, Repr

/-- A data volume `cdi.DataVolume`: the object name and the spec. -/
structure DataVolume where
  Name : String := ""
  Spec : DataVolumeSpec := {}
deriving DecidableEq, Repr

/-- The secret passed to `DataVolumes`; only its name is read. -/
structure Secret where
  Name : String := ""
deriving DecidableEq, Repr

/-- The config map passed to `DataVolumes`; only its name is read. -/
structure ConfigMap where
  Name : String := ""
deriving DecidableEq, Repr

/-! ## The builder -/

/-- The builder: the parts of the plan context it reads and the loaded provisioners.
`findVM`, `findStorageDomain` and `findNetwork` are `r.Source.Inventory.Find` at the three
source kinds, `findStorageClass` is `r.Destination.Inventory.Find`, `URL` is
`r.Source.Provider.Spec.URL`, `storageMap` and `networkMap` are the plan's mapping lists,
`provisioners` is the map loaded by `loadProvisioners`, `pathJoin` is Go's standard
`path.Join` on two elements, and `liberrWrap` is the function `liberr.Wrap(err, context...)` of
the library `konveyor/controller`, which lies outside the repository: the builder only passes
its errors through it, and nothing is assumed about the error it returns. -/
structure Builder where
  findVM : Ref → Except Err Workload
  findStorageDomain : Ref → Except Err StorageDomain
  findNetwork : Ref → Except Err Network
  findStorageClass : Ref → Except Err StorageClass
  URL : String
  storageMap : List StoragePair
  networkMap : List NetworkPair
  provisioners : String → Option Provisioner
  pathJoin : String → String → String
  liberrWrap : Err → List String → Err

/-- Set volume and access modes (`Builder.defaultModes`): the entry after the call and the
returned error. -/
def defaultModes (r : Builder) (dm : DestinationStorage) : DestinationStorage × Option Err :=
  match r.findStorageClass { Name := dm.StorageClass } with
  | .error err => (dm, some (r.liberrWrap err []))
  | .ok model =>
    if dm.VolumeMode = "" ∨ dm.AccessMode = "" then
      match r.provisioners model.Object.Provisioner with
      | some provisioner =>
        let volumeMode := provisioner.VolumeMode dm.VolumeMode
        let accessMode := volumeMode.AccessMode dm.AccessMode
        let dm1 := if dm.VolumeMode = "" then { dm with VolumeMode := volumeMode.Name } else dm
        let dm2 := if dm1.AccessMode = "" then { dm1 with AccessMode := accessMode.Name } else dm1
        (dm2, none)
      | none => (dm, none)
    else (dm, none)

/-- The data volume spec built inside the loops of `DataVolumes` (lines 158-188) for the
mapping destination `dest` (already defaulted) and the disk attachment `da`. -/
def dvSpec (url : String) (secret : Secret) (configMap : ConfigMap)
    (dest : DestinationStorage) (da : DiskAttachment) : DataVolumeSpec :=
  let storageClass := dest.StorageClass
  let volumeMode := if dest.VolumeMode ≠ "" then dest.VolumeMode else PersistentVolumeFilesystem
  let accessMode := if dest.AccessMode ≠ "" then dest.AccessMode else ReadWriteOnce
  let imageio : DataVolumeSourceImageIO :=
    { URL := url
      DiskID := da.Disk.ID
      SecretRef := secret.Name
      CertConfigMap := configMap.Name }
  let storage : StorageSpec :=
    { AccessModes := [accessMode]
      VolumeMode := some volumeMode
      Resources := { Requests := [(ResourceStorage, ⟨da.Disk.ProvisionedSize, BinarySI⟩)] }
      StorageClassName := some storageClass }
  { Source := { Imageio := some imageio }, Storage := some storage }

/-- The inner loop of `DataVolumes` over the VM's disk attachments, for one mapping entry whose
storage domain is `sd`: appends a spec for every attachment on that storage domain. -/
def dataVolumesDisks (url : String) (secret : Secret) (configMap : ConfigMap)
    (sd : StorageDomain) (dest : DestinationStorage) :
    List DiskAttachment → List DataVolumeSpec → List DataVolumeSpec
  | [], dvs => dvs
  | da :: rest, dvs =>
    if da.Disk.StorageDomain = sd.ID then
      dataVolumesDisks url secret configMap sd dest rest
        (dvs ++ [dvSpec url secret configMap dest da])
    else
      dataVolumesDisks url secret configMap sd dest rest dvs

/-- The result of `DataVolumes`: the returned specs, the returned error, and the plan's storage
mapping as the call leaves it. -/
structure DataVolumesResult where
  dvs : List DataVolumeSpec
  err : Option Err
  storageMap : List StoragePair

/-- The outer loop of `DataVolumes` over the remaining mapping entries, with the specs
accumulated so far. -/
def dataVolumesLoop (r : Builder) (vm : Workload) (secret : Secret) (configMap : ConfigMap) :
    List StoragePair → List DataVolumeSpec → DataVolumesResult
  | [], dvs => { dvs := dvs, err := none, storageMap := [] }
  | mapped :: rest, dvs =>
    match r.findStorageDomain mapped.Source with
    | .error fErr => { dvs := dvs, err := some fErr, storageMap := mapped :: rest }
    | .ok sd =>
      match defaultModes r mapped.Destination with
      | (dest, some mErr) =>
        { dvs := dvs, err := some mErr
          storageMap := ({ mapped with Destination := dest } : StoragePair) :: rest }
      | (dest, none) =>
        let out := dataVolumesLoop r vm secret configMap rest
          (dataVolumesDisks r.URL secret configMap sd dest vm.DiskAttachments dvs)
        { out with storageMap := ({ mapped with Destination := dest } : StoragePair) :: out.storageMap }

/-- Create DataVolume specs for the VM (`Builder.DataVolumes`). -/
def DataVolumes (r : Builder) (vmRef : Ref) (secret : Secret) (configMap : ConfigMap) :
    DataVolumesResult :=
  match r.findVM vmRef with
  | .error err =>
    { dvs := []
      err := some (r.liberrWrap err ["VM lookup failed.", "vm", vmRef.String])
      storageMap := r.storageMap }
  | .ok vm => dataVolumesLoop r vm secret configMap r.storageMap []

/-! ## KubeVirt machine spec types (package `cnv`) -/

namespace cnv

/-- The reference from a volume to a data volume, by name. -/
structure DataVolumeSource where
  Name : String := ""
deriving DecidableEq, Repr

/-- The source of a volume; `DataVolume` is a pointer. -/
structure VolumeSource where
  DataVolume : Option DataVolumeSource := none
deriving DecidableEq, Repr

/-- A volume of the machine spec. -/
structure Volume where
  Name : String := ""
  VolumeSource : VolumeSource := {}
deriving DecidableEq, Repr

/-- The target of a disk device. -/
structure DiskTarget where
  Bus : String := ""
deriving DecidableEq, Repr

/-- The device of a disk; `Disk` is a pointer. -/
structure DiskDevice where
  Disk : Option DiskTarget := none
deriving DecidableEq, Repr

/-- A disk device entry of the machine spec. -/
structure Disk where
  Name : String := ""
  DiskDevice : DiskDevice := {}
deriving DecidableEq, Repr

/-- The pod network source (no fields are set by the builder). -/
structure PodNetwork where
deriving DecidableEq, Repr

/-- The multus network source. -/
structure MultusNetwork where
  NetworkName : String := ""
deriving DecidableEq, Repr

/-- A network of the machine spec, with the two network sources the builder sets. -/
structure Network where
  Name : String := ""
  Pod : Option PodNetwork := none
  Multus : Option MultusNetwork := none
deriving DecidableEq, Repr

/-- The masquerade binding (no fields). -/
structure InterfaceMasquerade where
deriving DecidableEq, Repr

/-- The SR-IOV binding (no fields). -/
structure InterfaceSRIOV where
deriving DecidableEq, Repr

/-- The bridge binding (no fields). -/
structure InterfaceBridge where
deriving DecidableEq, Repr

/-- An interface device of the machine spec, with the three binding methods the builder
sets. -/
structure Interface where
  Name : String := ""
  Model : String := ""
  MacAddress : String := ""
  Masquerade : Option InterfaceMasquerade := none
  SRIOV : Option InterfaceSRIOV := none
  Bridge : Option InterfaceBridge := none
deriving DecidableEq, Repr

/-- An input device. -/
structure Input where
  Type_ : String := ""
  Name : String := ""
  Bus : String := ""
deriving DecidableEq, Repr

/-- A timer (no fields are set by the builder). -/
structure Timer where
deriving DecidableEq, Repr

/-- The clock: the timer pointer and the timezone pointer. -/
structure Clock where
  Timer : Option Timer := none
  Timezone : Option String := none
deriving DecidableEq, Repr

/-- The machine type. -/
structure Machine where
  Type_ : String := ""
deriving DecidableEq, Repr

/-- The CPU topology, three `uint32` values. -/
structure CPU where
  Sockets : Nat := 0
  Cores : Nat := 0
  Threads : Nat := 0
deriving DecidableEq, Repr

/-- A feature state; `Enabled` is a pointer to a boolean. -/
structure FeatureState where
  Enabled : Option Bool := none
deriving DecidableEq, Repr

/-- The features; `SMM` is a pointer. -/
structure Features where
  SMM : Option FeatureState := none
deriving DecidableEq, Repr

/-- The legacy BIOS bootloader (no fields). -/
structure BIOS where
deriving DecidableEq, Repr

/-- The EFI bootloader (no fields are set by the builder). -/
structure EFI where
deriving DecidableEq, Repr

/-- The bootloader: two pointers. -/
structure Bootloader where
  BIOS : Option BIOS := none
  EFI : Option EFI := none
deriving DecidableEq, Repr

/-- The firmware: the serial number and the bootloader pointer. -/
structure Firmware where
  Serial : String := ""
  Bootloader : Option Bootloader := none
deriving DecidableEq, Repr

/-- The template `cnv.VirtualMachineInstanceTemplateSpec`, with the fields the builder writes;
`Disks`, `Interfaces` and `Inputs` are `Spec.Domain.Devices.*`, the fields from `Clock` on are
`Spec.Domain.*`, `Volumes` and `Networks` are `Spec.*`.  The default value is Go's zero value. -/
structure VirtualMachineInstanceTemplateSpec where
  Volumes : List Volume := []
  Networks : List Network := []
  Disks : List Disk := []
  Interfaces : List Interface := []
  Inputs : List Input := []
  Clock : Option Clock := none
  Resources : ResourceRequirements := {}
  Machine : Option Machine := none
  CPU : Option CPU := none
  Features : Option Features := none
  Firmware : Option Firmware := none
deriving DecidableEq, Repr

/-- The spec `cnv.VirtualMachineSpec`; `Template` is a pointer. -/
structure VirtualMachineSpec where
  Template : Option VirtualMachineInstanceTemplateSpec := none
deriving DecidableEq, Repr

end cnv

/-! ## The private mappers

The private mappers are only called from `VirtualMachine`, after it has set
`object.Template` to a fresh template (line 210); their `object` is that template. -/

/-- Name `fmt.Sprintf("vol-%v", i)`. -/
def volumeName (i : Nat) : String := "vol-" ++ toString i

/-- Name `fmt.Sprintf("net-%v", i)`. -/
def networkName (i : Nat) : String := "net-" ++ toString i

/-- The first loop of `mapDisks`: the map from imageio disk id to data volume (a later data
volume overwrites an earlier one with the same disk id).  `none` is the panic on a data volume
without imageio source. -/
def dvMapLoop : List DataVolume → (String → Option DataVolume) →
    Option (String → Option DataVolume)
  | [], dvMap => some dvMap
  | dv :: rest, dvMap =>
    match dv.Spec.Source.Imageio with
    | none => none
    | some imageio => dvMapLoop rest (fun k => if k = imageio.DiskID then some dv else dvMap k)

/-- The bus chosen by the switch of `mapDisks` on the attachment interface. -/
def diskBus (iface : String) : String :=
  if iface = VirtioScsi then Scsi
  else if iface = Sata then Sata
  else Virtio

/-- The second loop of `mapDisks`, at index `i` of the disk attachment list.  `none` is the
panic of `dv.Name` when the map has no data volume for the disk (`dv` is nil). -/
def mapDisksLoop (dvMap : String → Option DataVolume) :
    Nat → List DiskAttachment → cnv.VirtualMachineInstanceTemplateSpec →
    Option cnv.VirtualMachineInstanceTemplateSpec
  | _, [], object => some object
  | i, da :: rest, object =>
    match dvMap da.Disk.ID with
    | none => none
    | some dv =>
      let volume : cnv.Volume :=
        { Name := volumeName i, VolumeSource := { DataVolume := some { Name := dv.Name } } }
      let disk : cnv.Disk :=
        { Name := volumeName i, DiskDevice := { Disk := some { Bus := diskBus da.Interface } } }
      mapDisksLoop dvMap (i + 1) rest
        { object with Volumes := object.Volumes ++ [volume], Disks := object.Disks ++ [disk] }

/-- The mapper `Builder.mapDisks`; `none` is a run-time panic. -/
def mapDisks (vm : Workload) (dataVolumes : List DataVolume)
    (object : cnv.VirtualMachineInstanceTemplateSpec) :
    Option cnv.VirtualMachineInstanceTemplateSpec :=
  match dvMapLoop dataVolumes (fun _ => none) with
  | none => none
  | some dvMap => mapDisksLoop dvMap 0 vm.DiskAttachments object

/-- The inner loop of `mapNetworks` over the NICs: `(needed, passThrough, mac)`, set at the
first NIC whose profile is on the network. -/
def mapNetworksNICs (network : Network) : List NIC → Bool × Bool × String
  | [] => (false, false, "")
  | nic :: rest =>
    if nic.Profile.Network = network.ID then (true, nic.Profile.PassThrough, nic.Mac)
    else mapNetworksNICs network rest

/-- The network and interface built by `mapNetworks` for mapping entry `i` once a NIC is
found (lines 253-275). -/
def networkEntry (r : Builder) (i : Nat) (mapped : NetworkPair) (passThrough : Bool)
    (mac : String) : cnv.Network × cnv.Interface :=
  let kNetwork : cnv.Network := { Name := networkName i }
  let kInterface : cnv.Interface := { Name := networkName i, Model := Virtio, MacAddress := mac }
  if mapped.Destination.Type_ = Pod then
    ({ kNetwork with Pod := some {} }, { kInterface with Masquerade := some {} })
  else if mapped.Destination.Type_ = Multus then
    ({ kNetwork with
        Multus := some
          { NetworkName := r.pathJoin mapped.Destination.Namespace mapped.Destination.Name } },
     if passThrough then { kInterface with SRIOV := some {} }
     else { kInterface with Bridge := some {} })
  else (kNetwork, kInterface)

/-- The outer loop of `mapNetworks`, at index `i` of the network mapping list. -/
def mapNetworksLoop (r : Builder) (vm : Workload) :
    Nat → List NetworkPair → List cnv.Network → List cnv.Interface →
    Except Err (List cnv.Network × List cnv.Interface)
  | _, [], kNetworks, kInterfaces => .ok (kNetworks, kInterfaces)
  | i, mapped :: rest, kNetworks, kInterfaces =>
    match r.findNetwork mapped.Source with
    | .error fErr => .error fErr
    | .ok network =>
      match mapNetworksNICs network vm.NICs with
      | (false, _, _) => mapNetworksLoop r vm (i + 1) rest kNetworks kInterfaces
      | (true, passThrough, mac) =>
        let e := networkEntry r i mapped passThrough mac
        mapNetworksLoop r vm (i + 1) rest (kNetworks ++ [e.1]) (kInterfaces ++ [e.2])

/-- The mapper `Builder.mapNetworks`: the template after the call and the returned error. -/
def mapNetworks (r : Builder) (vm : Workload) (object : cnv.VirtualMachineInstanceTemplateSpec) :
    cnv.VirtualMachineInstanceTemplateSpec × Option Err :=
  match mapNetworksLoop r vm 0 r.networkMap [] [] with
  | .error err => (object, some err)
  | .ok (kNetworks, kInterfaces) =>
    ({ object with Networks := kNetworks, Interfaces := kInterfaces }, none)

/-- The mapper `Builder.mapInput`. -/
def mapInput (object : cnv.VirtualMachineInstanceTemplateSpec) :
    cnv.VirtualMachineInstanceTemplateSpec :=
  { object with Inputs := [{ Type_ := Tablet, Name := Tablet, Bus := Virtio }] }

/-- The mapper `Builder.mapClock`. -/
def mapClock (vm : Workload) (object : cnv.VirtualMachineInstanceTemplateSpec) :
    cnv.VirtualMachineInstanceTemplateSpec :=
  { object with Clock := some { Timer := some {}, Timezone := some vm.Timezone } }

/-- The mapper `Builder.mapMemory`. -/
def mapMemory (vm : Workload) (object : cnv.VirtualMachineInstanceTemplateSpec) :
    cnv.VirtualMachineInstanceTemplateSpec :=
  { object with Resources := { Requests := [(ResourceMemory, ⟨vm.Memory, BinarySI⟩)] } }

/-- The Go conversion `uint32(x)` of a signed integer. -/
def uint32 (x : Int) : Nat := (x % 4294967296).toNat

/-- The mapper `Builder.mapCPU`. -/
def mapCPU (vm : Workload) (object : cnv.VirtualMachineInstanceTemplateSpec) :
    cnv.VirtualMachineInstanceTemplateSpec :=
  { object with
    Machine := some { Type_ := "q35" }
    CPU := some
      { Sockets := uint32 vm.CpuSockets
        Cores := uint32 vm.CpuCores
        Threads := uint32 vm.CpuThreads } }

/-- The mapper `Builder.mapFirmware`. -/
def mapFirmware (vm : Workload) (cluster : Cluster)
    (object : cnv.VirtualMachineInstanceTemplateSpec) :
    cnv.VirtualMachineInstanceTemplateSpec :=
  let biosType := if vm.BIOS = ClusterDefault then cluster.BiosType else vm.BIOS
  let serial := if vm.SerialNumber = "" then vm.ID else vm.SerialNumber
  if biosType = Q35Ovmf then
    { object with
      Features := some { SMM := some { Enabled := some true } }
      Firmware := some { Serial := serial, Bootloader := some { EFI := some {} } } }
  else
    { object with
      Features := some {}
      Firmware := some { Serial := serial, Bootloader := some { BIOS := some {} } } }

/-- Create the destination Kubevirt VM (`Builder.VirtualMachine`): the object after the call
and the returned error; `none` is a run-time panic. -/
def VirtualMachine (r : Builder) (vmRef : Ref) (object : cnv.VirtualMachineSpec)
    (dataVolumes : List DataVolume) : Option (cnv.VirtualMachineSpec × Option Err) :=
  match r.findVM vmRef with
  | .error err => some (object, some (r.liberrWrap err ["VM lookup failed.", "vm", vmRef.String]))
  | .ok vm =>
    match mapDisks vm dataVolumes {} with
    | none => none
    | some t1 =>
      let t2 := mapFirmware vm vm.Cluster t1
      let t3 := mapCPU vm t2
      let t4 := mapMemory vm t3
      let t5 := mapClock vm t4
      let t6 := mapInput t5
      let out := mapNetworks r vm t6
      some ({ Template := some out.1 }, out.2)

/-! ## Tasks and identifiers -/

/-- The progress `libitr.Progress`. -/
structure Progress where
  Total : Int := 0
  Completed : Int := 0
deriving DecidableEq, Repr

/-- A task `plan.Task`, with the fields the builder sets. -/
structure Task where
  Name : String := ""
  Progress : Progress := {}
  Annotations : List (String × String) := []
deriving DecidableEq, Repr

/-- Go's division of two `int64` values: the quotient truncated toward zero. -/
def goDiv (a b : Int) : Int := Int.tdiv a b

/-- The loop of `Tasks` over the disk attachments, with the list built so far. -/
def tasksLoop : List DiskAttachment → List Task → List Task
  | [], list => list
  | da :: rest, list =>
    let mB := goDiv da.Disk.ProvisionedSize 0x100000
    tasksLoop rest
      (list ++ [{ Name := da.Disk.ID, Progress := { Total := mB }, Annotations := [("unit", "MB")] }])

/-- Build tasks (`Builder.Tasks`): the returned list and error.  A failed lookup does not
return early: the loop then runs over the VM record as `Find` left it, taken to be the zero
value. -/
def Tasks (r : Builder) (vmRef : Ref) : List Task × Option Err :=
  match r.findVM vmRef with
  | .error err =>
    (tasksLoop ({} : Workload).DiskAttachments [],
      some (r.liberrWrap err ["VM lookup failed.", "vm", vmRef.String]))
  | .ok vm => (tasksLoop vm.DiskAttachments [], none)

/-- Return a stable identifier for a DataVolume (`Builder.ResolveDataVolumeIdentifier`);
`none` is the panic on a nil imageio source. -/
def ResolveDataVolumeIdentifier (dv : DataVolume) : Option String :=
  match dv.Spec.Source.Imageio with
  | none => none
  | some imageio => some imageio.DiskID

/-! ## Template labels -/

/-- Prefix of `TemplateOSLabel`: `fmt.Sprintf("os.template.kubevirt.io/%s", os)` is this
string followed by `os`. -/
def TemplateOSLabel (os : String) : String := "os.template.kubevirt.io/" ++ os
/-- Template label `TemplateWorkloadLabel`. -/
def TemplateWorkloadLabel : String := "workload.template.kubevirt.io/server"
/-- Template label `TemplateFlavorLabel`. -/
def TemplateFlavorLabel : String := "flavor.template.kubevirt.io/medium"

/-- Operating system `DefaultWindows`. -/
def DefaultWindows : String := "win10"
/-- Operating system `DefaultLinux`. -/
def DefaultLinux : String := "rhel8.1"
/-- Operating system `Unknown`. -/
def Unknown : String := "unknown"

/-- Map of ovirt guest ids to osinfo ids (`osMap`), as the list of its key/value pairs. -/
def osMap : List (String × String) :=
  [ ("rhel_6_10_plus_ppc64", "rhel6.10"),
    ("rhel_6_ppc64", "rhel6.10"),
    ("rhel_6", "rhel6.10"),
    ("rhel_6x64", "rhel6.10"),
    ("rhel_6_9_plus_ppc64", "rhel6.9"),
    ("rhel_7_ppc64", "rhel7.7"),
    ("rhel_7_s390x", "rhel7.7"),
    ("rhel_7x64", "rhel7.7"),
    ("rhel_8x64", "rhel8.1"),
    ("sles_11_ppc64", "opensuse15.0"),
    ("sles_11", "opensuse15.0"),
    ("sles_12_s390x", "opensuse15.0"),
    ("ubuntu_12_04", "ubuntu18.04"),
    ("ubuntu_12_10", "ubuntu18.04"),
    ("ubuntu_13_04", "ubuntu18.04"),
    ("ubuntu_13_10", "ubuntu18.04"),
    ("ubuntu_14_04_ppc64", "ubuntu18.04"),
    ("ubuntu_14_04", "ubuntu18.04"),
    ("ubuntu_16_04_s390x", "ubuntu18.04"),
    ("windows_10", "win10"),
    ("windows_10x64", "win10"),
    ("windows_2003", "win10"),
    ("windows_2003x64", "win10"),
    ("windows_2008R2x64", "win2k8"),
    ("windows_2008", "win2k8"),
    ("windows_2008x64", "win2k8"),
    ("windows_2012R2x64", "win2k12r2"),
    ("windows_2012x64", "win2k12r2"),
    ("windows_2016x64", "win2k16"),
    ("windows_2019x64", "win2k19"),
    ("windows_7", "win10"),
    ("windows_7x64", "win10"),
    ("windows_8", "win10"),
    ("windows_8x64", "win10"),
    ("windows_xp", "win10") ]

/-- Go map read `m[k]` with the `ok` flag, on the list of pairs of a map. -/
def mapGet (m : List (String × String)) (k : String) : Option String :=
  match m with
  | [] => none
  | (k2, v) :: rest => if k2 = k then some v else mapGet rest k

/-- Go map write `m[k] = v`, on the list of pairs of a map: the value of an existing key is
replaced, a new key is added. -/
def mapSet (m : List (String × String)) (k v : String) : List (String × String) :=
  match m with
  | [] => [(k, v)]
  | (k2, v2) :: rest => if k2 = k then (k, v) :: rest else (k2, v2) :: mapSet rest k v

/-- Whether the characters `sub` occur in `s` as a contiguous block. -/
def containsChars : List Char → List Char → Bool
  | [], sub => sub.isPrefixOf []
  | c :: s, sub => sub.isPrefixOf (c :: s) || containsChars s sub

/-- Go's standard `strings.Contains(s, substr)`. -/
def stringsContains (s substr : String) : Bool := containsChars s.data substr.data

/-- The OS class chosen by `TemplateLabels` for a guest-OS identifier (lines 456-465). -/
def templateOS (osType : String) : String :=
  match mapGet osMap osType with
  | some os => os
  | none =>
    if stringsContains osType "linux" || stringsContains osType "rhel" then DefaultLinux
    else if stringsContains osType "win" then DefaultWindows
    else Unknown

/-- The template labels of a VM (`Builder.TemplateLabels`): the returned map, as the list of
its pairs, and the returned error. -/
def TemplateLabels (r : Builder) (vmRef : Ref) : List (String × String) × Option Err :=
  match r.findVM vmRef with
  | .error err => ([], some (r.liberrWrap err ["VM lookup failed.", "vm", vmRef.String]))
  | .ok vm =>
    let os := templateOS vm.OSType
    let labels : List (String × String) := []
    let labels := mapSet labels (TemplateOSLabel os) "true"
    let labels := mapSet labels TemplateWorkloadLabel "true"
    let labels := mapSet labels TemplateFlavorLabel "true"
    (labels, none)

/-! ## Example inputs -/

/-- An example VM: disk `d0` (sata, 5 MiB) on storage domain `A`, disk `d1` (3 MiB) on storage
domain `B`, one pass-through NIC on network `n1`. -/
def exampleVM : Workload :=
  { ID := "vm1"
    DiskAttachments :=
      [ { Interface := "sata", Disk := { ID := "d0", ProvisionedSize := 5242880, StorageDomain := "A" } },
        { Interface := "virtio", Disk := { ID := "d1", ProvisionedSize := 3145728, StorageDomain := "B" } } ]
    NICs := [ { Mac := "00:1a:4a:16:01:51", Profile := { Network := "n1", PassThrough := true } } ] }

/-- An example provisioner whose defaults are block mode and `ReadOnlyMany`. -/
def exampleProvisioner : Provisioner :=
  { VolumeMode := fun name =>
      { Name := if name = "" then "Block" else name
        AccessMode := fun a => { Name := if a = "" then "ReadOnlyMany" else a } } }

/-- An example of `liberr.Wrap`: an error that already carries a cause is returned as it is,
any other error becomes the cause of a new error with the context. -/
def exampleWrap (err : Err) (context : List String) : Err :=
  match err with
  | .wrap cause ctx => .wrap cause ctx
  | .lookup what => .wrap (.lookup what) context

/-- An example builder over given mapping lists: the source inventory holds `exampleVM` under
the id `vm1`, the storage domains `A` and `B` and the network `n1`; the destination inventory
holds the storage class `sc`, whose provisioner `p` is loaded. -/
def exampleBuilder (storageMap : List StoragePair) (networkMap : List NetworkPair) : Builder :=
  { findVM := fun x => if x.ID = "vm1" then .ok exampleVM else .error (.lookup "vm")
    findStorageDomain := fun x =>
      if x.ID = "A" ∨ x.ID = "B" then .ok { ID := x.ID } else .error (.lookup "storage domain")
    findNetwork := fun x => if x.ID = "n1" then .ok { ID := "n1" } else .error (.lookup "network")
    findStorageClass := fun x =>
      if x.Name = "sc" then .ok { Object := { Provisioner := "p" } }
      else .error (.lookup "storage class")
    URL := "https://engine/ovirt-engine/api"
    storageMap := storageMap
    networkMap := networkMap
    provisioners := fun k => if k = "p" then some exampleProvisioner else none
    pathJoin := fun a b => a ++ "/" ++ b
    liberrWrap := exampleWrap }

/-- A storage mapping entry from the storage domain with id `sd` to storage class `sc`. -/
def pairTo (sd : String) : StoragePair :=
  { Source := { ID := sd }, Destination := { StorageClass := "sc" } }

/-- The data volume objects created from the specs, named `dv-0`, `dv-1`, ... -/
def dataVolumesOf (specs : List DataVolumeSpec) : List DataVolume :=
  specs.enum.map (fun p => { Name := "dv-" ++ toString p.1, Spec := p.2 })

/-- A network mapping entry from the network `n1` to a destination of the given type. -/
def netPairTo (type : String) : NetworkPair :=
  { Source := { ID := "n1" }, Destination := { Type_ := type, Namespace := "ns", Name := "nad" } }

/-- An example VM whose only disk has the provisioned size -1. -/
def negativeSizeVM : Workload :=
  { ID := "vm2"
    DiskAttachments :=
      [ { Disk := { ID := "d9", ProvisionedSize := -1, StorageDomain := "A" } } ] }

/-- The example builder over empty mappings whose inventory returns `negativeSizeVM`. -/
def negativeSizeBuilder : Builder :=
  { exampleBuilder [] [] with findVM := fun _ => .ok negativeSizeVM }

/-- A builder whose VM has its only disk on storage domain `A`, and whose storage mapping has
the single entry from storage domain `B` to the storage class `missing`, absent from the
destination inventory. -/
def missingClassBuilder : Builder :=
  { negativeSizeBuilder with
    storageMap := [{ Source := { ID := "B" }, Destination := { StorageClass := "missing" } }] }

/-! ## Vocabulary of the statements -/

/-- The number of connectivity fields among `Masquerade`, `SRIOV`, `Bridge` that are set. -/
def bindingCount (f : cnv.Interface) : Nat :=
  (if f.Masquerade.isSome then 1 else 0) + (if f.SRIOV.isSome then 1 else 0) +
    (if f.Bridge.isSome then 1 else 0)

/-- Whether a lookup succeeded. -/
def lookupOk {α : Type} (x : Except Err α) : Bool :=
  match x with
  | .ok _ => true
  | .error _ => false

/-- The entries of the storage mapping that come before the first entry with a failing
storage-domain or storage-class lookup: all entries when no lookup fails. -/
def processedEntries (r : Builder) : List StoragePair :=
  r.storageMap.takeWhile (fun e =>
    lookupOk (r.findStorageDomain e.Source) &&
      lookupOk (r.findStorageClass { Name := e.Destination.StorageClass }))

/-- The string `sub` occurs in `s` as a contiguous block of characters.  (Go compares bytes;
for the ASCII patterns of the builder, on valid UTF-8, this is the same relation.) -/
def occursIn (sub s : String) : Prop := ∃ a b, s.data = a ++ sub.data ++ b

/-- The last data volume of the list whose imageio disk id is `diskID`. -/
def lastDataVolume (dataVolumes : List DataVolume) (diskID : String) : Option DataVolume :=
  (dataVolumes.filter (fun dv => decide (ResolveDataVolumeIdentifier dv = some diskID))).getLast?

/-! ## Lemmas on `defaultModes` -/

theorem defaultModes_err_none_iff (r : Builder) (dm : DestinationStorage) :
    (defaultModes r dm).2 = none ↔
      ∃ sc, r.findStorageClass { Name := dm.StorageClass } = .ok sc := by
  unfold defaultModes
  cases h : r.findStorageClass { Name := dm.StorageClass } with
  | error e => simp
  | ok sc =>
    simp only [Except.ok.injEq, exists_eq', iff_true]
    split
    · split <;> rfl
    · rfl

theorem defaultModes_storageClass (r : Builder) (dm : DestinationStorage) :
    (defaultModes r dm).1.StorageClass = dm.StorageClass := by
  unfold defaultModes
  cases h : r.findStorageClass { Name := dm.StorageClass } with
  | error e => rfl
  | ok sc =>
    simp only
    split
    · split
      · simp only
        split <;> split <;> rfl
      · rfl
    · rfl

/-! ## Lemmas on the loops of `DataVolumes` -/

theorem dataVolumesDisks_eq (url : String) (secret : Secret) (configMap : ConfigMap)
    (sd : StorageDomain) (dest : DestinationStorage) (das : List DiskAttachment)
    (dvs : List DataVolumeSpec) :
    dataVolumesDisks url secret configMap sd dest das dvs =
      dvs ++ (das.filter (fun da => da.Disk.StorageDomain = sd.ID)).map
        (dvSpec url secret configMap dest) := by
  induction das generalizing dvs with
  | nil => simp [dataVolumesDisks]
  | cons da rest ih =>
    unfold dataVolumesDisks
    by_cases h : da.Disk.StorageDomain = sd.ID
    · simp [h, ih]
    · simp [h, ih]

theorem dataVolumesLoop_ok (r : Builder) (vm : Workload) (secret : Secret)
    (configMap : ConfigMap) (sdOf : StoragePair → StorageDomain) (entries : List StoragePair)
    (dvs : List DataVolumeSpec)
    (hsd : ∀ e ∈ entries, r.findStorageDomain e.Source = .ok (sdOf e))
    (hsc : ∀ e ∈ entries, ∃ sc, r.findStorageClass { Name := e.Destination.StorageClass } = .ok sc) :
    (dataVolumesLoop r vm secret configMap entries dvs).err = none ∧
    (dataVolumesLoop r vm secret configMap entries dvs).dvs =
      dvs ++ entries.flatMap (fun e =>
        (vm.DiskAttachments.filter (fun da => da.Disk.StorageDomain = (sdOf e).ID)).map
          (dvSpec r.URL secret configMap (defaultModes r e.Destination).1)) := by
  induction entries generalizing dvs with
  | nil => simp [dataVolumesLoop]
  | cons e rest ih =>
    have h1 := hsd e (List.mem_cons_self _ _)
    have h2 := (defaultModes_err_none_iff r e.Destination).2 (hsc e (List.mem_cons_self _ _))
    have ih2 := fun dvs => ih dvs (fun x hx => hsd x (List.mem_cons_of_mem _ hx))
      (fun x hx => hsc x (List.mem_cons_of_mem _ hx))
    unfold dataVolumesLoop
    rw [h1]
    simp only
    rcases hdm : defaultModes r e.Destination with ⟨dest, merr⟩
    rw [hdm] at h2
    simp only at h2
    subst h2
    simp only [List.flatMap_cons, dataVolumesDisks_eq, (ih2 _).1, (ih2 _).2, hdm,
      List.append_assoc, and_self]

/-- Splitting the attachments on `id :: rest` into those on `id` and those on `rest`. -/
theorem filter_length_cons_of_not_mem (das : List DiskAttachment) (id : String)
    (rest : List String) (hid : id ∉ rest) :
    (das.filter (fun da => da.Disk.StorageDomain = id)).length +
        (das.filter (fun da => da.Disk.StorageDomain ∈ rest)).length =
      (das.filter (fun da => da.Disk.StorageDomain ∈ id :: rest)).length := by
  induction das with
  | nil => simp
  | cons da tl ih =>
    by_cases h1 : da.Disk.StorageDomain = id
    · have h2 : da.Disk.StorageDomain ∉ rest := by rw [h1]; exact hid
      simp only [List.filter_cons, List.mem_cons, h1, hid, decide_True, decide_False, true_or,
        if_true, List.length_cons, Bool.false_eq_true, if_false] at ih ⊢
      omega
    · by_cases h2 : da.Disk.StorageDomain ∈ rest
      · simp only [List.filter_cons, List.mem_cons, h1, h2, decide_True, decide_False, or_true,
          if_true, List.length_cons] at ih ⊢
        simp only [Bool.false_eq_true, if_false]
        omega
      · simp only [List.filter_cons, List.mem_cons, h1, h2, decide_False, or_self] at ih ⊢
        simp only [Bool.false_eq_true, if_false]
        exact ih

/-- The number of attachments on one of the storage domains `ids` is the sum, over the ids, of
the number of attachments on that id, when the ids are pairwise distinct. -/
theorem sum_filter_eq_of_nodup (das : List DiskAttachment) (ids : List String)
    (hnd : ids.Nodup) :
    (ids.map (fun id => (das.filter (fun da => da.Disk.StorageDomain = id)).length)).sum =
      (das.filter (fun da => da.Disk.StorageDomain ∈ ids)).length := by
  induction ids with
  | nil => simp
  | cons id rest ih =>
    rw [List.nodup_cons] at hnd
    rw [List.map_cons, List.sum_cons, ih hnd.2]
    exact filter_length_cons_of_not_mem das id rest hnd.1

/-- Every spec returned by the outer loop was either accumulated before, or was built from an
entry whose storage domain was resolved and an attachment of the VM on that storage domain. -/
theorem dataVolumesLoop_mem (r : Builder) (vm : Workload) (secret : Secret)
    (configMap : ConfigMap) (entries : List StoragePair) (dvs : List DataVolumeSpec)
    (spec : DataVolumeSpec)
    (h : spec ∈ (dataVolumesLoop r vm secret configMap entries dvs).dvs) :
    spec ∈ dvs ∨ ∃ e ∈ entries, ∃ sd, r.findStorageDomain e.Source = .ok sd ∧
      ∃ da ∈ vm.DiskAttachments, da.Disk.StorageDomain = sd.ID ∧
        spec = dvSpec r.URL secret configMap (defaultModes r e.Destination).1 da := by
  induction entries generalizing dvs with
  | nil => exact Or.inl (by simpa [dataVolumesLoop] using h)
  | cons e rest ih =>
    unfold dataVolumesLoop at h
    cases hsd : r.findStorageDomain e.Source with
    | error fErr =>
      rw [hsd] at h
      exact Or.inl h
    | ok sd =>
      rw [hsd] at h
      simp only at h
      rcases hdm : defaultModes r e.Destination with ⟨dest, merr⟩
      rw [hdm] at h
      cases merr with
      | some mErr => exact Or.inl h
      | none =>
        simp only at h
        rcases ih _ h with h1 | ⟨e2, he2, sd2, hsd2, da, hda, hmatch, hspec⟩
        · rw [dataVolumesDisks_eq, List.mem_append] at h1
          rcases h1 with h1 | h1
          · exact Or.inl h1
          · rw [List.mem_map] at h1
            obtain ⟨da, hda, hspec⟩ := h1
            rw [List.mem_filter] at hda
            refine Or.inr ⟨e, List.mem_cons_self _ _, sd, hsd, da, hda.1, ?_, ?_⟩
            · simpa using hda.2
            · rw [hdm]; exact hspec.symm
        · exact Or.inr ⟨e2, List.mem_cons_of_mem _ he2, sd2, hsd2, da, hda, hmatch, hspec⟩

/-! ## Decimal rendering of indices is injective -/

theorem digitChar_toNat_sub (k : Nat) (h : k < 10) : (Nat.digitChar k).toNat - 48 = k := by
  interval_cases k <;> rfl

theorem toDigitsCore_foldl (fuel n : Nat) (ds : List Char) (h : n < fuel) :
    (Nat.toDigitsCore 10 fuel n ds).foldl (fun a c => a * 10 + (c.toNat - 48)) 0 =
      ds.foldl (fun a c => a * 10 + (c.toNat - 48)) n := by
  induction fuel generalizing n ds with
  | zero => omega
  | succ f ih =>
    unfold Nat.toDigitsCore
    simp only
    have hd : (Nat.digitChar (n % 10)).toNat - 48 = n % 10 :=
      digitChar_toNat_sub _ (Nat.mod_lt _ (by decide))
    split
    · next h0 =>
      simp only [List.foldl_cons, hd]
      congr 1
      omega
    · next h0 =>
      rw [ih (n / 10) _ (by omega)]
      simp only [List.foldl_cons, hd]
      congr 1
      omega

theorem toString_nat_injective (a b : Nat) (h : toString a = toString b) : a = b := by
  have h1 : Nat.toDigits 10 a = Nat.toDigits 10 b := by
    have := congrArg String.data h
    simpa [toString, Nat.repr, List.asString] using this
  have h2 := congrArg (fun l => l.foldl (fun a c => a * 10 + (c.toNat - 48)) 0) h1
  simp only [Nat.toDigits] at h2
  rw [toDigitsCore_foldl _ _ _ (by omega), toDigitsCore_foldl _ _ _ (by omega)] at h2
  simpa using h2

theorem volumeName_injective (a b : Nat) (h : volumeName a = volumeName b) : a = b := by
  apply toString_nat_injective
  have h1 := congrArg String.data h
  simp only [volumeName, String.data_append, List.append_cancel_left_eq] at h1
  exact String.ext h1

theorem networkName_injective (a b : Nat) (h : networkName a = networkName b) : a = b := by
  apply toString_nat_injective
  have h1 := congrArg String.data h
  simp only [networkName, String.data_append, List.append_cancel_left_eq] at h1
  exact String.ext h1

/-! ## Lemmas on the loops of `mapDisks` -/

theorem dvMapLoop_some (dvs : List DataVolume) (m : String → Option DataVolume)
    (hio : ∀ dv ∈ dvs, (ResolveDataVolumeIdentifier dv).isSome) :
    ∃ m2, dvMapLoop dvs m = some m2 ∧
      ∀ k, ((∃ dv ∈ dvs, ResolveDataVolumeIdentifier dv = some k) ∨ (∃ dv, m k = some dv)) →
        ∃ dv, m2 k = some dv := by
  induction dvs generalizing m with
  | nil =>
    refine ⟨m, rfl, ?_⟩
    intro k hk
    rcases hk with ⟨dv, hdv, _⟩ | hk
    · exact absurd hdv (List.not_mem_nil _)
    · exact hk
  | cons dv rest ih =>
    obtain ⟨id, hid⟩ := Option.isSome_iff_exists.1 (hio dv (List.mem_cons_self _ _))
    unfold ResolveDataVolumeIdentifier at hid
    unfold dvMapLoop
    cases hsrc : dv.Spec.Source.Imageio with
    | none => rw [hsrc] at hid; cases hid
    | some imageio =>
      rw [hsrc] at hid
      simp only [Option.some.injEq] at hid
      simp only
      obtain ⟨m2, hm2, hcov⟩ := ih (fun k => if k = imageio.DiskID then some dv else m k)
        (fun x hx => hio x (List.mem_cons_of_mem _ hx))
      refine ⟨m2, hm2, ?_⟩
      intro k hk
      apply hcov
      rcases hk with ⟨dv2, hdv2, hres⟩ | ⟨dv2, hk⟩
      · rcases List.mem_cons.1 hdv2 with h | h
        · subst h
          right
          unfold ResolveDataVolumeIdentifier at hres
          rw [hsrc] at hres
          simp only [Option.some.injEq] at hres
          exact ⟨dv2, by simp [hres]⟩
        · exact Or.inl ⟨dv2, h, hres⟩
      · right
        by_cases hkid : k = imageio.DiskID
        · exact ⟨dv, by simp [hkid]⟩
        · exact ⟨dv2, by simp [hkid, hk]⟩

theorem mapDisksLoop_some (dvMap : String → Option DataVolume) (i : Nat)
    (das : List DiskAttachment) (object : cnv.VirtualMachineInstanceTemplateSpec)
    (h : ∀ da ∈ das, ∃ dv, dvMap da.Disk.ID = some dv) :
    ∃ out, mapDisksLoop dvMap i das object = some out := by
  induction das generalizing i object with
  | nil => exact ⟨object, rfl⟩
  | cons da rest ih =>
    obtain ⟨dv, hdv⟩ := h da (List.mem_cons_self _ _)
    unfold mapDisksLoop
    rw [hdv]
    exact ih _ _ (fun x hx => h x (List.mem_cons_of_mem _ hx))

theorem mapDisksLoop_spec (dvMap : String → Option DataVolume) (i : Nat)
    (das : List DiskAttachment) (object out : cnv.VirtualMachineInstanceTemplateSpec)
    (h : mapDisksLoop dvMap i das object = some out) :
    out.Volumes = object.Volumes ++ (das.enumFrom i).map (fun p =>
      ({ Name := volumeName p.1
         VolumeSource :=
          { DataVolume := some { Name := ((dvMap p.2.Disk.ID).map (fun dv => dv.Name)).getD "" } } } :
        cnv.Volume)) ∧
    out.Disks = object.Disks ++ (das.enumFrom i).map (fun p =>
      ({ Name := volumeName p.1
         DiskDevice := { Disk := some { Bus := diskBus p.2.Interface } } } : cnv.Disk)) := by
  induction das generalizing i object with
  | nil =>
    simp only [mapDisksLoop, Option.some.injEq] at h
    subst h
    simp
  | cons da rest ih =>
    unfold mapDisksLoop at h
    cases hdv : dvMap da.Disk.ID with
    | none => rw [hdv] at h; cases h
    | some dv =>
      rw [hdv] at h
      simp only at h
      obtain ⟨h1, h2⟩ := ih _ _ h
      simp only [h1, h2, List.enumFrom_cons, List.map_cons, List.append_assoc,
        List.singleton_append, hdv, Option.map_some', Option.getD_some, and_self]

/-! ## Lemmas on the loops of `mapNetworks` -/

theorem mapNetworksNICs_needed (network : Network) (nics : List NIC) :
    (mapNetworksNICs network nics).1 = true ↔
      ∃ nic ∈ nics, nic.Profile.Network = network.ID := by
  induction nics with
  | nil => simp [mapNetworksNICs]
  | cons nic rest ih =>
    unfold mapNetworksNICs
    by_cases h : nic.Profile.Network = network.ID
    · simp [h]
    · simp [h, ih]

theorem networkEntry_fst_name (r : Builder) (i : Nat) (mapped : NetworkPair)
    (passThrough : Bool) (mac : String) :
    (networkEntry r i mapped passThrough mac).1.Name = networkName i := by
  unfold networkEntry
  simp only
  split
  · rfl
  · split <;> rfl

theorem networkEntry_snd_name (r : Builder) (i : Nat) (mapped : NetworkPair)
    (passThrough : Bool) (mac : String) :
    (networkEntry r i mapped passThrough mac).2.Name = networkName i := by
  unfold networkEntry
  simp only
  split
  · rfl
  · split
    · split <;> rfl
    · rfl

theorem networkEntry_bindingCount (r : Builder) (i : Nat) (mapped : NetworkPair)
    (passThrough : Bool) (mac : String) :
    bindingCount (networkEntry r i mapped passThrough mac).2 =
      if mapped.Destination.Type_ = Pod ∨ mapped.Destination.Type_ = Multus then 1 else 0 := by
  unfold networkEntry
  simp only
  by_cases h1 : mapped.Destination.Type_ = Pod
  · simp [h1, bindingCount]
  · by_cases h2 : mapped.Destination.Type_ = Multus
    · have hne : ¬ Multus = Pod := by decide
      cases passThrough <;> simp [h2, hne, bindingCount]
    · simp [h1, h2, bindingCount]

theorem mapNetworksLoop_ok (r : Builder) (vm : Workload) (netOf : NetworkPair → Network)
    (i : Nat) (entries : List NetworkPair) (kNetworks : List cnv.Network)
    (kInterfaces : List cnv.Interface)
    (hnet : ∀ e ∈ entries, r.findNetwork e.Source = .ok (netOf e)) :
    mapNetworksLoop r vm i entries kNetworks kInterfaces =
      .ok (kNetworks ++ ((entries.enumFrom i).filter (fun p =>
              (mapNetworksNICs (netOf p.2) vm.NICs).1)).map (fun p =>
              (networkEntry r p.1 p.2 (mapNetworksNICs (netOf p.2) vm.NICs).2.1
                (mapNetworksNICs (netOf p.2) vm.NICs).2.2).1),
           kInterfaces ++ ((entries.enumFrom i).filter (fun p =>
              (mapNetworksNICs (netOf p.2) vm.NICs).1)).map (fun p =>
              (networkEntry r p.1 p.2 (mapNetworksNICs (netOf p.2) vm.NICs).2.1
                (mapNetworksNICs (netOf p.2) vm.NICs).2.2).2)) := by
  induction entries generalizing i kNetworks kInterfaces with
  | nil => simp [mapNetworksLoop]
  | cons e rest ih =>
    have h1 := hnet e (List.mem_cons_self _ _)
    have ih2 := fun i kN kI => ih i kN kI (fun x hx => hnet x (List.mem_cons_of_mem _ hx))
    unfold mapNetworksLoop
    rw [h1]
    simp only
    rcases hn : mapNetworksNICs (netOf e) vm.NICs with ⟨needed, passThrough, mac⟩
    cases needed with
    | false => simp [ih2, List.filter_cons, hn]
    | true => simp [ih2, List.filter_cons, hn]

theorem mapNetworksLoop_mem (r : Builder) (vm : Workload) (i : Nat)
    (entries : List NetworkPair) (kNetworks kN : List cnv.Network)
    (kInterfaces kI : List cnv.Interface)
    (h : mapNetworksLoop r vm i entries kNetworks kInterfaces = .ok (kN, kI))
    (f : cnv.Interface) (hf : f ∈ kI) :
    f ∈ kInterfaces ∨ ∃ j e passThrough mac, entries[j]? = some e ∧
      f = (networkEntry r (i + j) e passThrough mac).2 := by
  induction entries generalizing i kNetworks kInterfaces with
  | nil =>
    simp only [mapNetworksLoop, Except.ok.injEq, Prod.mk.injEq] at h
    exact Or.inl (h.2 ▸ hf)
  | cons e rest ih =>
    unfold mapNetworksLoop at h
    cases hfind : r.findNetwork e.Source with
    | error fErr => rw [hfind] at h; cases h
    | ok network =>
      rw [hfind] at h
      simp only at h
      rcases hn : mapNetworksNICs network vm.NICs with ⟨needed, passThrough, mac⟩
      rw [hn] at h
      cases needed with
      | false =>
        simp only at h
        rcases ih _ _ _ h with h1 | ⟨j, e2, pt, m, hj, hfe⟩
        · exact Or.inl h1
        · exact Or.inr ⟨j + 1, e2, pt, m, by simpa using hj, by rw [hfe]; congr 2; omega⟩
      | true =>
        simp only at h
        rcases ih _ _ _ h with h1 | ⟨j, e2, pt, m, hj, hfe⟩
        · rcases List.mem_append.1 h1 with h2 | h2
          · exact Or.inl h2
          · refine Or.inr ⟨0, e, passThrough, mac, by simp, ?_⟩
            simpa using h2
        · exact Or.inr ⟨j + 1, e2, pt, m, by simpa using hj, by rw [hfe]; congr 2; omega⟩


theorem mapNetworks_ok (r : Builder) (vm : Workload)
    (object : cnv.VirtualMachineInstanceTemplateSpec) (netOf : NetworkPair → Network)
    (hnet : ∀ e ∈ r.networkMap, r.findNetwork e.Source = .ok (netOf e)) :
    (mapNetworks r vm object).2 = none ∧
    (mapNetworks r vm object).1.Networks.map (fun n => n.Name) =
      (r.networkMap.enum.filter (fun p =>
        decide (∃ nic ∈ vm.NICs, nic.Profile.Network = (netOf p.2).ID))).map
          (fun p => networkName p.1) ∧
    (mapNetworks r vm object).1.Interfaces.map (fun f => f.Name) =
      (r.networkMap.enum.filter (fun p =>
        decide (∃ nic ∈ vm.NICs, nic.Profile.Network = (netOf p.2).ID))).map
          (fun p => networkName p.1) := by
  have hfilter : (fun p : Nat × NetworkPair => (mapNetworksNICs (netOf p.2) vm.NICs).1) =
      (fun p => decide (∃ nic ∈ vm.NICs, nic.Profile.Network = (netOf p.2).ID)) := by
    funext p
    rw [Bool.eq_iff_iff, mapNetworksNICs_needed]
    simp
  unfold mapNetworks
  rw [mapNetworksLoop_ok r vm netOf 0 r.networkMap [] [] hnet]
  simp only [List.nil_append, List.map_map, hfilter, List.enum, true_and]
  constructor
  · apply List.map_congr_left
    intro p _
    exact networkEntry_fst_name _ _ _ _ _
  · apply List.map_congr_left
    intro p _
    exact networkEntry_snd_name _ _ _ _ _

theorem mem_enum_filter_names (entries : List NetworkPair) (q : Nat × NetworkPair → Bool)
    (i : Nat) (e : NetworkPair) (hi : entries[i]? = some e) :
    networkName i ∈ (entries.enum.filter q).map (fun p => networkName p.1) ↔ q (i, e) = true := by
  rw [List.mem_map]
  constructor
  · rintro ⟨p, hp, hname⟩
    rw [List.mem_filter] at hp
    have hpi : p.1 = i := networkName_injective _ _ hname
    have hpe := List.mem_enum_iff_getElem?.1 hp.1
    rw [hpi, hi] at hpe
    have : p = (i, e) := by
      cases p
      simp only [Option.some.injEq] at hpe hpi
      simp [hpi, hpe]
    rw [← this]
    exact hp.2
  · intro hq
    exact ⟨(i, e), List.mem_filter.2 ⟨List.mem_enum_iff_getElem?.2 hi, hq⟩, rfl⟩

/-! ## Lemmas on `Tasks` -/

theorem tasksLoop_eq (das : List DiskAttachment) (list : List Task) :
    tasksLoop das list = list ++ das.map (fun da =>
      ({ Name := da.Disk.ID
         Progress := { Total := goDiv da.Disk.ProvisionedSize 0x100000 }
         Annotations := [("unit", "MB")] } : Task)) := by
  induction das generalizing list with
  | nil => simp [tasksLoop]
  | cons da rest ih => simp [tasksLoop, ih]

theorem goDiv_eq_floor (a : Int) (h : 0 ≤ a) : goDiv a 1048576 = ⌊(a : ℚ) / 1048576⌋ := by
  have h1 : ((1048576 : ℕ) : ℚ) = 1048576 := by norm_num
  rw [← h1, Rat.floor_intCast_div_natCast]
  unfold goDiv
  rw [Int.tdiv_eq_ediv h (by decide)]
  rfl

theorem goDiv_eq_ceil (a : Int) (h : a < 0) : goDiv a 1048576 = ⌈(a : ℚ) / 1048576⌉ := by
  have h2 : (a : ℚ) / 1048576 = -(((-a : Int) : ℚ) / 1048576) := by push_cast; ring
  rw [h2, Int.ceil_neg, ← goDiv_eq_floor (-a) (by omega)]
  unfold goDiv
  rw [Int.neg_tdiv, neg_neg]

/-! ## Lemmas on the errors of `DataVolumes` -/

theorem defaultModes_of_error (r : Builder) (dm : DestinationStorage) (err : Err)
    (h : r.findStorageClass { Name := dm.StorageClass } = .error err) :
    defaultModes r dm = (dm, some (r.liberrWrap err [])) := by
  unfold defaultModes
  rw [h]

theorem defaultModes_err_ne_none_iff (r : Builder) (dm : DestinationStorage) :
    (defaultModes r dm).2 ≠ none ↔
      ∃ err, r.findStorageClass { Name := dm.StorageClass } = .error err := by
  rw [Ne, defaultModes_err_none_iff]
  cases r.findStorageClass { Name := dm.StorageClass } with
  | error e => simp
  | ok sc => simp

theorem dataVolumesLoop_err_iff (r : Builder) (vm : Workload) (secret : Secret)
    (configMap : ConfigMap) (entries : List StoragePair) (dvs : List DataVolumeSpec) :
    (dataVolumesLoop r vm secret configMap entries dvs).err ≠ none ↔
      ∃ e ∈ entries, (∃ err, r.findStorageDomain e.Source = .error err) ∨
        (∃ err, r.findStorageClass { Name := e.Destination.StorageClass } = .error err) := by
  induction entries generalizing dvs with
  | nil => simp [dataVolumesLoop]
  | cons e rest ih =>
    unfold dataVolumesLoop
    cases hsd : r.findStorageDomain e.Source with
    | error fErr =>
      simp only [ne_eq, reduceCtorEq, not_false_eq_true, true_iff]
      exact ⟨e, List.mem_cons_self _ _, Or.inl ⟨fErr, hsd⟩⟩
    | ok sd =>
      simp only
      have hdm := defaultModes_err_ne_none_iff r e.Destination
      rcases hd : defaultModes r e.Destination with ⟨dest, merr⟩
      rw [hd] at hdm
      cases merr with
      | some mErr =>
        simp only [ne_eq, reduceCtorEq, not_false_eq_true, true_iff]
        exact ⟨e, List.mem_cons_self _ _, Or.inr (hdm.1 (by simp))⟩
      | none =>
        simp only [ne_eq, not_true_eq_false, false_iff, not_exists] at hdm
        simp only
        rw [ih]
        constructor
        · rintro ⟨x, hx, h⟩
          exact ⟨x, List.mem_cons_of_mem _ hx, h⟩
        · rintro ⟨x, hx, h⟩
          rcases List.mem_cons.1 hx with rfl | hx
          · rcases h with ⟨err, h⟩ | ⟨err, h⟩
            · rw [hsd] at h; cases h
            · exact absurd h (hdm err)
          · exact ⟨x, hx, h⟩

theorem dataVolumesLoop_append_ok (r : Builder) (vm : Workload) (secret : Secret)
    (configMap : ConfigMap) (sdOf : StoragePair → StorageDomain) (pre rest : List StoragePair)
    (dvs : List DataVolumeSpec)
    (hsd : ∀ e ∈ pre, r.findStorageDomain e.Source = .ok (sdOf e))
    (hsc : ∀ e ∈ pre, ∃ sc, r.findStorageClass { Name := e.Destination.StorageClass } = .ok sc) :
    dataVolumesLoop r vm secret configMap (pre ++ rest) dvs =
      { dvs := (dataVolumesLoop r vm secret configMap rest
          (dvs ++ pre.flatMap (fun e =>
            (vm.DiskAttachments.filter (fun da => da.Disk.StorageDomain = (sdOf e).ID)).map
              (dvSpec r.URL secret configMap (defaultModes r e.Destination).1)))).dvs
        err := (dataVolumesLoop r vm secret configMap rest
          (dvs ++ pre.flatMap (fun e =>
            (vm.DiskAttachments.filter (fun da => da.Disk.StorageDomain = (sdOf e).ID)).map
              (dvSpec r.URL secret configMap (defaultModes r e.Destination).1)))).err
        storageMap :=
          pre.map (fun e => ({ e with Destination := (defaultModes r e.Destination).1 } : StoragePair))
            ++ (dataVolumesLoop r vm secret configMap rest
              (dvs ++ pre.flatMap (fun e =>
                (vm.DiskAttachments.filter (fun da => da.Disk.StorageDomain = (sdOf e).ID)).map
                  (dvSpec r.URL secret configMap (defaultModes r e.Destination).1)))).storageMap } := by
  induction pre generalizing dvs with
  | nil => simp
  | cons e tl ih =>
    have h1 := hsd e (List.mem_cons_self _ _)
    have h2 := (defaultModes_err_none_iff r e.Destination).2 (hsc e (List.mem_cons_self _ _))
    have ih2 := fun dvs => ih dvs (fun x hx => hsd x (List.mem_cons_of_mem _ hx))
      (fun x hx => hsc x (List.mem_cons_of_mem _ hx))
    rw [List.cons_append]
    conv => lhs; unfold dataVolumesLoop
    rw [h1]
    simp only
    rcases hdm : defaultModes r e.Destination with ⟨dest, merr⟩
    rw [hdm] at h2
    simp only at h2
    subst h2
    simp only [ih2, dataVolumesDisks_eq, List.flatMap_cons, List.append_assoc, List.map_cons,
      List.cons_append, hdm]

/-- The specs returned by the outer loop, in every run: those accumulated before, then, for
the entries before the first entry with a failing lookup, in order, one spec per attachment on
the storage domain of the entry, in attachment order. -/
theorem dataVolumesLoop_dvs (r : Builder) (vm : Workload) (secret : Secret)
    (configMap : ConfigMap) (entries : List StoragePair) (dvs : List DataVolumeSpec) :
    (dataVolumesLoop r vm secret configMap entries dvs).dvs =
      dvs ++ (entries.takeWhile (fun e =>
          lookupOk (r.findStorageDomain e.Source) &&
            lookupOk (r.findStorageClass { Name := e.Destination.StorageClass }))).flatMap
        (fun e =>
          match r.findStorageDomain e.Source with
          | .error _ => []
          | .ok sd =>
            (vm.DiskAttachments.filter (fun da => da.Disk.StorageDomain = sd.ID)).map
              (dvSpec r.URL secret configMap (defaultModes r e.Destination).1)) := by
  induction entries generalizing dvs with
  | nil => simp [dataVolumesLoop]
  | cons e rest ih =>
    unfold dataVolumesLoop
    cases hsd : r.findStorageDomain e.Source with
    | error fErr => simp [List.takeWhile_cons, lookupOk, hsd]
    | ok sd =>
      simp only
      have hnone := defaultModes_err_none_iff r e.Destination
      rcases hd : defaultModes r e.Destination with ⟨dest, merr⟩
      rw [hd] at hnone
      cases merr with
      | some mErr =>
        have hsc : lookupOk (r.findStorageClass { Name := e.Destination.StorageClass }) =
            false := by
          cases hf : r.findStorageClass { Name := e.Destination.StorageClass } with
          | error err => rfl
          | ok sc => exact absurd (hnone.2 ⟨sc, hf⟩) (by simp)
        rw [List.takeWhile_cons]
        simp [hsc]
      | none =>
        obtain ⟨sc, hf⟩ := hnone.1 rfl
        simp only [ih, dataVolumesDisks_eq, List.takeWhile_cons, lookupOk, hsd, hf,
          Bool.and_self, if_true, List.flatMap_cons, List.append_assoc, hd]

theorem processedEntries_eq_of_ok (r : Builder)
    (h : ∀ e ∈ r.storageMap, (∃ sd, r.findStorageDomain e.Source = .ok sd) ∧
      ∃ sc, r.findStorageClass { Name := e.Destination.StorageClass } = .ok sc) :
    processedEntries r = r.storageMap := by
  unfold processedEntries
  rw [List.takeWhile_eq_self_iff]
  intro e he
  obtain ⟨⟨sd, h1⟩, sc, h2⟩ := h e he
  simp [lookupOk, h1, h2]

theorem DataVolumes_err_iff_aux (r : Builder) (vmRef : Ref) (secret : Secret)
    (configMap : ConfigMap) :
    (DataVolumes r vmRef secret configMap).err ≠ none ↔
      ((∃ err, r.findVM vmRef = .error err) ∨
        ∃ e ∈ r.storageMap, (∃ err, r.findStorageDomain e.Source = .error err) ∨
          (∃ err, r.findStorageClass { Name := e.Destination.StorageClass } = .error err)) := by
  unfold DataVolumes
  cases hvm : r.findVM vmRef with
  | error err => simp
  | ok vm =>
    simp only [dataVolumesLoop_err_iff, reduceCtorEq, exists_false, false_or]

/-! ## Lemmas on `TemplateLabels` -/

theorem isPrefixOf_iff_append (sub s : List Char) :
    sub.isPrefixOf s = true ↔ ∃ b, s = sub ++ b := by
  induction sub generalizing s with
  | nil => simp
  | cons c rest ih =>
    cases s with
    | nil => simp [List.isPrefixOf]
    | cons d s =>
      simp only [List.isPrefixOf, Bool.and_eq_true, beq_iff_eq, ih, List.cons_append,
        List.cons.injEq]
      constructor
      · rintro ⟨h1, b, h2⟩
        exact ⟨b, h1.symm, h2⟩
      · rintro ⟨b, h1, h2⟩
        exact ⟨h1.symm, b, h2⟩

theorem containsChars_iff (s sub : List Char) :
    containsChars s sub = true ↔ ∃ a b, s = a ++ sub ++ b := by
  induction s with
  | nil =>
    simp only [containsChars, isPrefixOf_iff_append]
    constructor
    · rintro ⟨b, h⟩
      exact ⟨[], b, by simpa using h⟩
    · rintro ⟨a, b, h⟩
      have h2 := congrArg List.length h
      simp only [List.length_nil, List.length_append] at h2
      have ha : a = [] := List.length_eq_zero.1 (by omega)
      subst ha
      exact ⟨b, by simpa using h⟩
  | cons c s ih =>
    simp only [containsChars, Bool.or_eq_true, isPrefixOf_iff_append, ih]
    constructor
    · rintro (⟨b, h⟩ | ⟨a, b, h⟩)
      · exact ⟨[], b, by simpa using h⟩
      · exact ⟨c :: a, b, by simp [h]⟩
    · rintro ⟨a, b, h⟩
      cases a with
      | nil => exact Or.inl ⟨b, by simpa using h⟩
      | cons d a =>
        simp only [List.cons_append, List.cons.injEq] at h
        exact Or.inr ⟨a, b, h.2⟩

theorem stringsContains_iff (s sub : String) :
    stringsContains s sub = true ↔ occursIn sub s :=
  containsChars_iff s.data sub.data

theorem mapGet_of_mem (m : List (String × String)) (k v : String)
    (hnd : (m.map Prod.fst).Nodup) (h : (k, v) ∈ m) : mapGet m k = some v := by
  induction m with
  | nil => cases h
  | cons p rest ih =>
    obtain ⟨k2, v2⟩ := p
    simp only [List.map_cons, List.nodup_cons] at hnd
    unfold mapGet
    rcases List.mem_cons.1 h with h1 | h1
    · simp only [Prod.mk.injEq] at h1
      simp [h1.1, h1.2]
    · have hne : k2 ≠ k := by
        intro he
        apply hnd.1
        rw [he]
        exact List.mem_map.2 ⟨(k, v), h1, rfl⟩
      simp only [hne, if_false]
      exact ih hnd.2 h1

theorem mem_of_mapGet (m : List (String × String)) (k v : String)
    (h : mapGet m k = some v) : (k, v) ∈ m := by
  induction m with
  | nil => simp [mapGet] at h
  | cons p rest ih =>
    obtain ⟨k2, v2⟩ := p
    unfold mapGet at h
    by_cases hk : k2 = k
    · simp only [hk, if_true, Option.some.injEq] at h
      simp [hk, h]
    · simp only [hk, if_false] at h
      exact List.mem_cons_of_mem _ (ih h)

theorem mapGet_none_of_not_mem (m : List (String × String)) (k : String)
    (h : ∀ v, (k, v) ∉ m) : mapGet m k = none := by
  cases hg : mapGet m k with
  | none => rfl
  | some v => exact absurd (mem_of_mapGet m k v hg) (h v)

theorem osMap_keys_nodup : (osMap.map Prod.fst).Nodup := by
  decide

/-! ## Lemmas on the template labels -/

theorem TemplateOSLabel_ne_workload (os : String) : TemplateOSLabel os ≠ TemplateWorkloadLabel := by
  intro h
  have h1 := congrArg String.data h
  simp [TemplateOSLabel, TemplateWorkloadLabel, String.data_append] at h1

theorem TemplateOSLabel_ne_flavor (os : String) : TemplateOSLabel os ≠ TemplateFlavorLabel := by
  intro h
  have h1 := congrArg String.data h
  simp [TemplateOSLabel, TemplateFlavorLabel, String.data_append] at h1

theorem TemplateLabels_ok (r : Builder) (vmRef : Ref) (vm : Workload)
    (hvm : r.findVM vmRef = .ok vm) :
    TemplateLabels r vmRef =
      ([(TemplateOSLabel (templateOS vm.OSType), "true"), (TemplateWorkloadLabel, "true"),
        (TemplateFlavorLabel, "true")], none) := by
  have h1 := TemplateOSLabel_ne_workload (templateOS vm.OSType)
  have h2 := TemplateOSLabel_ne_flavor (templateOS vm.OSType)
  have h3 : TemplateWorkloadLabel ≠ TemplateFlavorLabel := by decide
  unfold TemplateLabels
  rw [hvm]
  simp only [mapSet, h1, h2, h3, if_false]

theorem templateOS_class (s : String) :
    templateOS s ∈ osMap.map Prod.snd ∨ templateOS s = "rhel8.1" ∨ templateOS s = "win10" ∨
      templateOS s = "unknown" := by
  unfold templateOS
  cases h : mapGet osMap s with
  | some v =>
    left
    exact List.mem_map.2 ⟨(s, v), mem_of_mapGet _ _ _ h, rfl⟩
  | none =>
    right
    simp only [DefaultLinux, DefaultWindows, Unknown]
    split
    · simp
    · split <;> simp

/-! ## Lemmas on the data volume map of `mapDisks` -/

theorem dvMapLoop_spec (dvs : List DataVolume) (m m2 : String → Option DataVolume)
    (h : dvMapLoop dvs m = some m2) (k : String) :
    m2 k = match lastDataVolume dvs k with
      | some dv => some dv
      | none => m k := by
  induction dvs generalizing m with
  | nil =>
    simp only [dvMapLoop, Option.some.injEq] at h
    subst h
    rfl
  | cons dv rest ih =>
    unfold dvMapLoop at h
    cases hsrc : dv.Spec.Source.Imageio with
    | none => rw [hsrc] at h; cases h
    | some imageio =>
      rw [hsrc] at h
      simp only at h
      have ih2 := ih _ h
      have hres : ResolveDataVolumeIdentifier dv = some imageio.DiskID := by
        unfold ResolveDataVolumeIdentifier
        rw [hsrc]
      rw [ih2]
      unfold lastDataVolume
      by_cases hk : k = imageio.DiskID
      · subst hk
        simp only [List.filter_cons, hres, decide_True, if_true, List.getLast?_cons]
        cases (rest.filter (fun dv =>
          decide (ResolveDataVolumeIdentifier dv = some imageio.DiskID))).getLast? with
        | none => simp
        | some d => simp
      · have hne : ¬ (ResolveDataVolumeIdentifier dv = some k) := by
          rw [hres]
          intro h2
          exact hk (Option.some.inj h2).symm
        simp only [List.filter_cons, hne, decide_False, hk, if_false, Bool.false_eq_true]

theorem mapDisksLoop_dv_some (dvMap : String → Option DataVolume) (i : Nat)
    (das : List DiskAttachment) (object out : cnv.VirtualMachineInstanceTemplateSpec)
    (h : mapDisksLoop dvMap i das object = some out) :
    ∀ da ∈ das, ∃ dv, dvMap da.Disk.ID = some dv := by
  induction das generalizing i object with
  | nil => intro da hda; cases hda
  | cons d rest ih =>
    unfold mapDisksLoop at h
    cases hdv : dvMap d.Disk.ID with
    | none => rw [hdv] at h; cases h
    | some dv =>
      rw [hdv] at h
      intro da hda
      rcases List.mem_cons.1 hda with rfl | hda
      · exact ⟨dv, hdv⟩
      · exact ih _ _ h da hda

theorem volumeName_range_nodup (n : Nat) : ((List.range n).map volumeName).Nodup :=
  (List.nodup_range n).map (fun a b h => volumeName_injective a b h)

/-! ## Lemmas on the entries of `mapNetworks` -/

theorem mapNetworksNICs_eq_find (network : Network) (nics : List NIC) :
    mapNetworksNICs network nics =
      match nics.find? (fun nic => decide (nic.Profile.Network = network.ID)) with
      | some nic => (true, nic.Profile.PassThrough, nic.Mac)
      | none => (false, false, "") := by
  induction nics with
  | nil => rfl
  | cons nic rest ih =>
    unfold mapNetworksNICs
    by_cases h : nic.Profile.Network = network.ID
    · simp [h]
    · simp [h, ih]

theorem mapNetworks_lists (r : Builder) (vm : Workload)
    (object : cnv.VirtualMachineInstanceTemplateSpec) (netOf : NetworkPair → Network)
    (hnet : ∀ e ∈ r.networkMap, r.findNetwork e.Source = .ok (netOf e)) :
    (mapNetworks r vm object).1.Networks =
      (r.networkMap.enum.filter (fun p => (mapNetworksNICs (netOf p.2) vm.NICs).1)).map
        (fun p => (networkEntry r p.1 p.2 (mapNetworksNICs (netOf p.2) vm.NICs).2.1
          (mapNetworksNICs (netOf p.2) vm.NICs).2.2).1) ∧
    (mapNetworks r vm object).1.Interfaces =
      (r.networkMap.enum.filter (fun p => (mapNetworksNICs (netOf p.2) vm.NICs).1)).map
        (fun p => (networkEntry r p.1 p.2 (mapNetworksNICs (netOf p.2) vm.NICs).2.1
          (mapNetworksNICs (netOf p.2) vm.NICs).2.2).2) := by
  unfold mapNetworks
  rw [mapNetworksLoop_ok r vm netOf 0 r.networkMap [] [] hnet]
  simp only [List.nil_append, List.enum, and_self]

theorem eq_of_mem_enum_filter (entries : List NetworkPair) (q : Nat × NetworkPair → Bool)
    (i : Nat) (e : NetworkPair) (hi : entries[i]? = some e) (p : Nat × NetworkPair)
    (hp : p ∈ entries.enum.filter q) (hname : networkName p.1 = networkName i) : p = (i, e) := by
  have hpi : p.1 = i := networkName_injective _ _ hname
  have hpe := List.mem_enum_iff_getElem?.1 (List.mem_filter.1 hp).1
  rw [hpi, hi] at hpe
  cases p
  simp only [Option.some.injEq] at hpe hpi
  simp [hpi, hpe]

/-! ## Lookups of the example builder -/

theorem exampleBuilder_findVM (storageMap : List StoragePair) (networkMap : List NetworkPair) :
    (exampleBuilder storageMap networkMap).findVM { ID := "vm1" } = .ok exampleVM := rfl

theorem exampleBuilder_findStorageDomain (storageMap : List StoragePair)
    (networkMap : List NetworkPair)
    (h : ∀ e ∈ storageMap, e.Source.ID = "A" ∨ e.Source.ID = "B") :
    ∀ e ∈ (exampleBuilder storageMap networkMap).storageMap,
      (exampleBuilder storageMap networkMap).findStorageDomain e.Source =
        .ok { ID := e.Source.ID } := by
  intro e he
  have h1 := h e he
  simp only [exampleBuilder, h1, if_true]

theorem exampleBuilder_findStorageClass (storageMap : List StoragePair)
    (networkMap : List NetworkPair)
    (h : ∀ e ∈ storageMap, e.Destination.StorageClass = "sc") :
    ∀ e ∈ (exampleBuilder storageMap networkMap).storageMap,
      ∃ sc, (exampleBuilder storageMap networkMap).findStorageClass
        { Name := e.Destination.StorageClass } = .ok sc := by
  intro e he
  have h1 := h e he
  exact ⟨{ Object := { Provisioner := "p" } }, by simp only [exampleBuilder, h1, if_true]⟩

theorem exampleBuilder_findNetwork (storageMap : List StoragePair)
    (networkMap : List NetworkPair) (h : ∀ e ∈ networkMap, e.Source.ID = "n1") :
    ∀ e ∈ (exampleBuilder storageMap networkMap).networkMap,
      (exampleBuilder storageMap networkMap).findNetwork e.Source = .ok { ID := "n1" } := by
  intro e he
  have h1 := h e he
  simp only [exampleBuilder, h1, if_true]

theorem exampleBuilder_findStorageDomain_of (storageMap : List StoragePair)
    (networkMap : List NetworkPair) (l : List StoragePair)
    (h : ∀ e ∈ l, e.Source.ID = "A" ∨ e.Source.ID = "B") :
    ∀ e ∈ l, (exampleBuilder storageMap networkMap).findStorageDomain e.Source =
      .ok { ID := e.Source.ID } := by
  intro e he
  have h1 := h e he
  simp only [exampleBuilder, h1, if_true]

theorem exampleBuilder_findStorageClass_of (storageMap : List StoragePair)
    (networkMap : List NetworkPair) (l : List StoragePair)
    (h : ∀ e ∈ l, e.Destination.StorageClass = "sc") :
    ∀ e ∈ l, ∃ sc, (exampleBuilder storageMap networkMap).findStorageClass
      { Name := e.Destination.StorageClass } = .ok sc := by
  intro e he
  have h1 := h e he
  exact ⟨{ Object := { Provisioner := "p" } }, by simp only [exampleBuilder, h1, if_true]⟩

/-! ## C1: number of volume specs -/

/-- C1 (as stated, refuted): with the mapping `[A, A]`, where both entries resolve to storage
domain `A`, the single attachment on a mapped storage domain yields two volume specs, so the
number of specs is not the number of attachments on mapped storage domains. -/
theorem DataVolumes_length_counterexample :
    ¬ ∀ (r : Builder) (vmRef : Ref) (secret : Secret) (configMap : ConfigMap) (vm : Workload)
        (sdOf : StoragePair → StorageDomain),
        r.findVM vmRef = .ok vm →
        (∀ e ∈ r.storageMap, r.findStorageDomain e.Source = .ok (sdOf e)) →
        (∀ e ∈ r.storageMap,
          ∃ sc, r.findStorageClass { Name := e.Destination.StorageClass } = .ok sc) →
        (DataVolumes r vmRef secret configMap).dvs.length =
          (vm.DiskAttachments.filter (fun da =>
            da.Disk.StorageDomain ∈ r.storageMap.map (fun e => (sdOf e).ID))).length := by
  intro h
  have h2 := h (exampleBuilder [pairTo "A", pairTo "A"] []) { ID := "vm1" } {} {} exampleVM
    (fun e => { ID := e.Source.ID }) (exampleBuilder_findVM _ _)
    (exampleBuilder_findStorageDomain _ _ (by decide))
    (exampleBuilder_findStorageClass _ _ (by decide))
  revert h2
  decide

/-- C1 (amended): when all lookups succeed, the number of volume specs is the number of pairs
(mapping entry, disk attachment) such that the attachment lies on the storage domain resolved
from the entry; when the resolved storage-domain ids are pairwise distinct, this is the number
of attachments lying on a resolved storage domain. -/
theorem DataVolumes_length (r : Builder) (vmRef : Ref) (secret : Secret)
    (configMap : ConfigMap) (vm : Workload) (sdOf : StoragePair → StorageDomain)
    (hvm : r.findVM vmRef = .ok vm)
    (hsd : ∀ e ∈ r.storageMap, r.findStorageDomain e.Source = .ok (sdOf e))
    (hsc : ∀ e ∈ r.storageMap,
      ∃ sc, r.findStorageClass { Name := e.Destination.StorageClass } = .ok sc) :
    (DataVolumes r vmRef secret configMap).dvs.length =
        (r.storageMap.map (fun e =>
          (vm.DiskAttachments.filter (fun da =>
            da.Disk.StorageDomain = (sdOf e).ID)).length)).sum ∧
    ((r.storageMap.map (fun e => (sdOf e).ID)).Nodup →
      (DataVolumes r vmRef secret configMap).dvs.length =
        (vm.DiskAttachments.filter (fun da =>
          da.Disk.StorageDomain ∈ r.storageMap.map (fun e => (sdOf e).ID))).length) := by
  have hlen : (DataVolumes r vmRef secret configMap).dvs.length =
      (r.storageMap.map (fun e =>
        (vm.DiskAttachments.filter (fun da =>
          da.Disk.StorageDomain = (sdOf e).ID)).length)).sum := by
    unfold DataVolumes
    rw [hvm]
    simp only
    rw [(dataVolumesLoop_ok r vm secret configMap sdOf r.storageMap [] hsd hsc).2]
    generalize r.storageMap = entries
    induction entries with
    | nil => simp
    | cons e rest ih =>
      simp only [List.nil_append, List.flatMap_cons, List.length_append, List.length_map,
        List.map_cons, List.sum_cons] at ih ⊢
      rw [ih]
  refine ⟨hlen, fun hnd => ?_⟩
  rw [hlen, ← sum_filter_eq_of_nodup vm.DiskAttachments _ hnd, List.map_map]
  rfl

/-- C1 (witness): the amended statement at the mapping `[A]` and the example VM. -/
theorem DataVolumes_length_witness :
    (DataVolumes (exampleBuilder [pairTo "A"] []) { ID := "vm1" } {} {}).dvs.length = 1 :=
  ((DataVolumes_length (exampleBuilder [pairTo "A"] []) { ID := "vm1" } {} {} exampleVM
    (fun e => { ID := e.Source.ID }) (exampleBuilder_findVM _ _)
    (exampleBuilder_findStorageDomain _ _ (by decide))
    (exampleBuilder_findStorageClass _ _ (by decide))).1).trans (by decide)

/-! ## C2: the machine spec built from the produced data volumes -/

/-- C2 (failing input): under the mapping `[A]` the example VM, whose second disk lies on the
unmapped storage domain `B`, gets one volume spec from `DataVolumes` without error; building
the machine spec from the data volume created from it panics in `mapDisks` (nil `dv`), instead
of returning a spec with one volume and one disk device. -/
theorem VirtualMachine_unmapped_attachment_panics :
    (DataVolumes (exampleBuilder [pairTo "A"] []) { ID := "vm1" } {} {}).err = none ∧
    ((DataVolumes (exampleBuilder [pairTo "A"] []) { ID := "vm1" } {} {}).dvs.map
      (fun s => s.Source.Imageio.map (fun io => io.DiskID))) = [some "d0"] ∧
    mapDisks exampleVM
      (dataVolumesOf (DataVolumes (exampleBuilder [pairTo "A"] []) { ID := "vm1" } {} {}).dvs)
      {} = none ∧
    VirtualMachine (exampleBuilder [pairTo "A"] []) { ID := "vm1" } {}
      (dataVolumesOf (DataVolumes (exampleBuilder [pairTo "A"] []) { ID := "vm1" } {} {}).dvs) =
      none := by
  decide

/-! ## C3: the index in the volume names -/

/-- C3 (as stated, refuted): under the mapping `[B, A]` the first attachment of the example VM
(disk `d0`) lies on storage domain `A`, resolved from mapping entry 1, and its disk device is
named `vol-0`, not `vol-1`. -/
theorem mapDisks_names_counterexample :
    ¬ ∀ (r : Builder) (vm : Workload) (sdOf : StoragePair → StorageDomain)
        (dataVolumes : List DataVolume) (out : cnv.VirtualMachineInstanceTemplateSpec)
        (k j : Nat) (da : DiskAttachment) (e : StoragePair),
        (∀ x ∈ r.storageMap, r.findStorageDomain x.Source = .ok (sdOf x)) →
        mapDisks vm dataVolumes {} = some out →
        vm.DiskAttachments[k]? = some da → r.storageMap[j]? = some e →
        da.Disk.StorageDomain = (sdOf e).ID →
        (out.Disks[k]?).map (fun d => d.Name) = some (volumeName j) ∧
        (out.Volumes[k]?).map (fun v => v.Name) = some (volumeName j) := by
  intro h
  have h2 := h (exampleBuilder [pairTo "B", pairTo "A"] []) exampleVM
    (fun e => { ID := e.Source.ID })
    (dataVolumesOf
      (DataVolumes (exampleBuilder [pairTo "B", pairTo "A"] []) { ID := "vm1" } {} {}).dvs)
    { Volumes :=
        [ { Name := "vol-0", VolumeSource := { DataVolume := some { Name := "dv-1" } } },
          { Name := "vol-1", VolumeSource := { DataVolume := some { Name := "dv-0" } } } ]
      Disks :=
        [ { Name := "vol-0", DiskDevice := { Disk := some { Bus := "sata" } } },
          { Name := "vol-1", DiskDevice := { Disk := some { Bus := "virtio" } } } ] }
    0 1 { Interface := "sata", Disk := { ID := "d0", ProvisionedSize := 5242880, StorageDomain := "A" } }
    (pairTo "A")
    (exampleBuilder_findStorageDomain _ _ (by decide)) (by decide) (by decide) (by decide)
    (by decide)
  revert h2
  decide

/-- C3 (amended): when every data volume has an imageio source and every disk attachment has
a data volume with its disk id, `mapDisks` completes and appends, for the attachment at
position `k` of the disk-attachment list of the VM, a volume and a disk device both named
`vol-<k>`; the storage mapping plays no part in the names. -/
theorem mapDisks_names (vm : Workload) (dataVolumes : List DataVolume)
    (object : cnv.VirtualMachineInstanceTemplateSpec)
    (hio : ∀ dv ∈ dataVolumes, (ResolveDataVolumeIdentifier dv).isSome)
    (hcov : ∀ da ∈ vm.DiskAttachments,
      ∃ dv ∈ dataVolumes, ResolveDataVolumeIdentifier dv = some da.Disk.ID) :
    ∃ out, mapDisks vm dataVolumes object = some out ∧
      out.Volumes.map (fun v => v.Name) =
        object.Volumes.map (fun v => v.Name) ++
          (List.range vm.DiskAttachments.length).map volumeName ∧
      out.Disks = object.Disks ++ vm.DiskAttachments.enum.map (fun p =>
        ({ Name := volumeName p.1
           DiskDevice := { Disk := some { Bus := diskBus p.2.Interface } } } : cnv.Disk)) := by
  obtain ⟨m, hm, hsome⟩ := dvMapLoop_some dataVolumes (fun _ => none) hio
  obtain ⟨out, hout⟩ := mapDisksLoop_some m 0 vm.DiskAttachments object
    (fun da hda => hsome _ (Or.inl (hcov da hda)))
  have hmd : mapDisks vm dataVolumes object = some out := by
    unfold mapDisks
    rw [hm]
    exact hout
  obtain ⟨h1, h2⟩ := mapDisksLoop_spec m 0 vm.DiskAttachments object out hout
  refine ⟨out, hmd, ?_, h2⟩
  rw [h1, List.map_append, List.map_map, ← List.enum_map_fst, List.map_map]
  rfl

/-- C3 (witness): the example VM with the data volumes produced under the mapping `[B, A]`. -/
theorem mapDisks_names_witness :
    ∃ out, mapDisks exampleVM
        (dataVolumesOf
          (DataVolumes (exampleBuilder [pairTo "B", pairTo "A"] []) { ID := "vm1" } {} {}).dvs)
        {} = some out ∧
      out.Volumes.map (fun v => v.Name) =
        ([] : List cnv.Volume).map (fun v => v.Name) ++
          (List.range exampleVM.DiskAttachments.length).map volumeName ∧
      out.Disks = [] ++ exampleVM.DiskAttachments.enum.map (fun p =>
        ({ Name := volumeName p.1
           DiskDevice := { Disk := some { Bus := diskBus p.2.Interface } } } : cnv.Disk)) :=
  mapDisks_names exampleVM
    (dataVolumesOf
      (DataVolumes (exampleBuilder [pairTo "B", pairTo "A"] []) { ID := "vm1" } {} {}).dvs)
    {} (by decide) (by decide)

/-! ## C4: which mapping entries produce a network -/

/-- C4: when all network lookups succeed, `mapNetworks` returns no error; the names of the
resulting networks, and of the resulting interfaces, are `net-<i>` for exactly the indices `i`
of mapping entries such that some NIC of the VM has a profile on the network resolved from the
entry, in mapping order; hence for every index `i` of the mapping list a network and an
interface named `net-<i>` are both present if and only if some NIC has a profile on the
network resolved from entry `i`. -/
theorem mapNetworks_emits_iff (r : Builder) (vm : Workload)
    (object : cnv.VirtualMachineInstanceTemplateSpec) (netOf : NetworkPair → Network)
    (hnet : ∀ e ∈ r.networkMap, r.findNetwork e.Source = .ok (netOf e)) :
    (mapNetworks r vm object).2 = none ∧
    (mapNetworks r vm object).1.Networks.map (fun n => n.Name) =
      (r.networkMap.enum.filter (fun p =>
        decide (∃ nic ∈ vm.NICs, nic.Profile.Network = (netOf p.2).ID))).map
          (fun p => networkName p.1) ∧
    (mapNetworks r vm object).1.Interfaces.map (fun f => f.Name) =
      (r.networkMap.enum.filter (fun p =>
        decide (∃ nic ∈ vm.NICs, nic.Profile.Network = (netOf p.2).ID))).map
          (fun p => networkName p.1) ∧
    ∀ (i : Nat) (e : NetworkPair), r.networkMap[i]? = some e →
      (((∃ n ∈ (mapNetworks r vm object).1.Networks, n.Name = networkName i) ∧
        (∃ f ∈ (mapNetworks r vm object).1.Interfaces, f.Name = networkName i)) ↔
        ∃ nic ∈ vm.NICs, nic.Profile.Network = (netOf e).ID) := by
  obtain ⟨h0, h1, h2⟩ := mapNetworks_ok r vm object netOf hnet
  refine ⟨h0, h1, h2, ?_⟩
  intro i e hi
  have hN : (∃ n ∈ (mapNetworks r vm object).1.Networks, n.Name = networkName i) ↔
      networkName i ∈ (mapNetworks r vm object).1.Networks.map (fun n => n.Name) := by
    rw [List.mem_map]
  have hI : (∃ f ∈ (mapNetworks r vm object).1.Interfaces, f.Name = networkName i) ↔
      networkName i ∈ (mapNetworks r vm object).1.Interfaces.map (fun f => f.Name) := by
    rw [List.mem_map]
  rw [hN, hI, h1, h2, mem_enum_filter_names _ _ i e hi]
  simp

/-- C4 (witness): the example VM has a NIC on network `n1`, so entry 0 of the mapping `[n1]`
produces a network and an interface named `net-0`. -/
theorem mapNetworks_emits_iff_witness :
    (mapNetworks (exampleBuilder [] [netPairTo "pod"]) exampleVM {}).1.Networks.map
        (fun n => n.Name) = ["net-0"] ∧
    (((∃ n ∈ (mapNetworks (exampleBuilder [] [netPairTo "pod"]) exampleVM {}).1.Networks,
        n.Name = networkName 0) ∧
      (∃ f ∈ (mapNetworks (exampleBuilder [] [netPairTo "pod"]) exampleVM {}).1.Interfaces,
        f.Name = networkName 0)) ↔
      ∃ nic ∈ exampleVM.NICs, nic.Profile.Network = "n1") :=
  ⟨(mapNetworks_emits_iff (exampleBuilder [] [netPairTo "pod"]) exampleVM {}
      (fun _ => { ID := "n1" }) (exampleBuilder_findNetwork _ _ (by decide))).2.1.trans
      (by decide),
   (mapNetworks_emits_iff (exampleBuilder [] [netPairTo "pod"]) exampleVM {}
      (fun _ => { ID := "n1" }) (exampleBuilder_findNetwork _ _ (by decide))).2.2.2 0
      (netPairTo "pod") (by decide)⟩

/-! ## C5: connectivity fields of the interfaces -/

/-- C5 (as stated, refuted): for a mapping entry with the empty destination type and a VM with
a NIC on its network, `mapNetworks` emits an interface with none of the three connectivity
fields set. -/
theorem mapNetworks_bindings_counterexample :
    ¬ ∀ (r : Builder) (vm : Workload) (object : cnv.VirtualMachineInstanceTemplateSpec),
        (mapNetworks r vm object).2 = none →
        ∀ f ∈ (mapNetworks r vm object).1.Interfaces, bindingCount f = 1 := by
  intro h
  have h2 := h (exampleBuilder [] [netPairTo ""]) exampleVM {} (by decide)
    { Name := "net-0", Model := "virtio", MacAddress := "00:1a:4a:16:01:51" } (by decide)
  revert h2
  decide

/-- C5 (amended): every interface emitted by a successful `mapNetworks` comes from a mapping
entry, is named after the index of that entry, and has exactly one of `Masquerade`, `SRIOV`,
`Bridge` set when the destination type of the entry is `pod` or `multus`, and none of them
for any other destination type. -/
theorem mapNetworks_bindings (r : Builder) (vm : Workload)
    (object : cnv.VirtualMachineInstanceTemplateSpec)
    (herr : (mapNetworks r vm object).2 = none)
    (f : cnv.Interface) (hf : f ∈ (mapNetworks r vm object).1.Interfaces) :
    ∃ j e, r.networkMap[j]? = some e ∧ f.Name = networkName j ∧
      bindingCount f =
        if e.Destination.Type_ = Pod ∨ e.Destination.Type_ = Multus then 1 else 0 := by
  unfold mapNetworks at herr hf
  cases hloop : mapNetworksLoop r vm 0 r.networkMap [] [] with
  | error err => rw [hloop] at herr; cases herr
  | ok res =>
    obtain ⟨kN, kI⟩ := res
    rw [hloop] at hf
    simp only at hf
    rcases mapNetworksLoop_mem r vm 0 r.networkMap [] kN [] kI hloop f hf with
      h | ⟨j, e, pt, mac, hj, hfe⟩
    · exact absurd h (List.not_mem_nil _)
    · refine ⟨j, e, hj, ?_, ?_⟩
      · rw [hfe, networkEntry_snd_name, Nat.zero_add]
      · rw [hfe, networkEntry_bindingCount]

/-- C5 (witness): the interface emitted for the example VM under a `multus` entry uses
SR-IOV only. -/
theorem mapNetworks_bindings_witness :
    ∃ j e, (exampleBuilder [] [netPairTo "multus"]).networkMap[j]? = some e ∧
      ({ Name := "net-0", Model := "virtio", MacAddress := "00:1a:4a:16:01:51",
         SRIOV := some {} } : cnv.Interface).Name = networkName j ∧
      bindingCount { Name := "net-0", Model := "virtio", MacAddress := "00:1a:4a:16:01:51",
                     SRIOV := some {} } =
        if e.Destination.Type_ = Pod ∨ e.Destination.Type_ = Multus then 1 else 0 :=
  mapNetworks_bindings (exampleBuilder [] [netPairTo "multus"]) exampleVM {} (by decide)
    { Name := "net-0", Model := "virtio", MacAddress := "00:1a:4a:16:01:51", SRIOV := some {} }
    (by decide)

/-! ## C6: one task per disk attachment -/

/-- C6: when the VM lookup succeeds, `Tasks` returns no error and one task per disk
attachment, in disk-attachment order, the task of an attachment being named by its disk id and
annotated `unit = MB`; replacing the storage mapping of the plan does not change the result. -/
theorem Tasks_one_per_attachment (r : Builder) (vmRef : Ref) (vm : Workload)
    (hvm : r.findVM vmRef = .ok vm) :
    (Tasks r vmRef).2 = none ∧
    (Tasks r vmRef).1.map (fun t => (t.Name, t.Annotations)) =
      vm.DiskAttachments.map (fun da => (da.Disk.ID, [("unit", "MB")])) ∧
    ∀ (storageMap : List StoragePair),
      Tasks { r with storageMap := storageMap } vmRef = Tasks r vmRef := by
  refine ⟨?_, ?_, ?_⟩
  · unfold Tasks; rw [hvm]
  · unfold Tasks; rw [hvm]
    simp only [tasksLoop_eq, List.nil_append, List.map_map]
    rfl
  · intro storageMap
    rfl

/-- C6 (witness): the two tasks of the example VM. -/
theorem Tasks_one_per_attachment_witness :
    (Tasks (exampleBuilder [] []) { ID := "vm1" }).1.map (fun t => (t.Name, t.Annotations)) =
      [("d0", [("unit", "MB")]), ("d1", [("unit", "MB")])] :=
  (Tasks_one_per_attachment (exampleBuilder [] []) { ID := "vm1" } exampleVM
    (exampleBuilder_findVM _ _)).2.1

/-! ## C7: the progress total -/

/-- C7 (as stated, refuted): for a disk of provisioned size -1 the progress total is 0, while
the floor of -1 / 1048576 is -1. -/
theorem Tasks_total_counterexample :
    ¬ ∀ (r : Builder) (vmRef : Ref) (vm : Workload), r.findVM vmRef = .ok vm →
        (Tasks r vmRef).1.map (fun t => t.Progress.Total) =
          vm.DiskAttachments.map (fun da => ⌊(da.Disk.ProvisionedSize : ℚ) / 1048576⌋) := by
  intro h
  have h2 := h negativeSizeBuilder {} negativeSizeVM rfl
  have h3 : (Tasks negativeSizeBuilder {}).1.map (fun t => t.Progress.Total) = [0] := by decide
  have h4 : ⌊((-1 : Int) : ℚ) / 1048576⌋ = -1 := by
    rw [Int.floor_eq_iff]
    norm_num
  rw [h3] at h2
  simp only [negativeSizeVM, List.map_cons, List.map_nil, h4] at h2
  revert h2
  decide

/-- C7 (amended): the progress total of the task of a disk attachment is the provisioned size
divided by 1048576 and truncated toward zero: the floor of the quotient for a non-negative
size, its ceiling for a negative size. -/
theorem Tasks_total (r : Builder) (vmRef : Ref) (vm : Workload)
    (hvm : r.findVM vmRef = .ok vm) :
    (Tasks r vmRef).1.map (fun t => t.Progress.Total) =
      vm.DiskAttachments.map (fun da =>
        if 0 ≤ da.Disk.ProvisionedSize then ⌊(da.Disk.ProvisionedSize : ℚ) / 1048576⌋
        else ⌈(da.Disk.ProvisionedSize : ℚ) / 1048576⌉) := by
  unfold Tasks
  rw [hvm]
  simp only [tasksLoop_eq, List.nil_append, List.map_map]
  apply List.map_congr_left
  intro da _
  simp only [Function.comp]
  split
  · next h => exact goDiv_eq_floor _ h
  · next h => exact goDiv_eq_ceil _ (by omega)

/-- C7 (witness): the task totals of the VM whose disk has size -1. -/
theorem Tasks_total_witness :
    (Tasks negativeSizeBuilder {}).1.map (fun t => t.Progress.Total) =
      negativeSizeVM.DiskAttachments.map (fun da =>
        if 0 ≤ da.Disk.ProvisionedSize then ⌊(da.Disk.ProvisionedSize : ℚ) / 1048576⌋
        else ⌈(da.Disk.ProvisionedSize : ℚ) / 1048576⌉) :=
  Tasks_total negativeSizeBuilder {} negativeSizeVM rfl

/-! ## C8: round trip of the disk id -/

/-- C8: every volume spec returned by `DataVolumes` (also next to an error) was built from an
entry of the mapping whose storage domain was resolved and from a disk attachment of the VM on
that storage domain, and `ResolveDataVolumeIdentifier` on any data volume carrying the spec
succeeds and returns the disk id of that attachment. -/
theorem ResolveDataVolumeIdentifier_DataVolumes (r : Builder) (vmRef : Ref) (secret : Secret)
    (configMap : ConfigMap) (vm : Workload) (hvm : r.findVM vmRef = .ok vm)
    (dv : DataVolume) (hdv : dv.Spec ∈ (DataVolumes r vmRef secret configMap).dvs) :
    ∃ e ∈ r.storageMap, ∃ sd, r.findStorageDomain e.Source = .ok sd ∧
      ∃ da ∈ vm.DiskAttachments, da.Disk.StorageDomain = sd.ID ∧
        dv.Spec = dvSpec r.URL secret configMap (defaultModes r e.Destination).1 da ∧
        ResolveDataVolumeIdentifier dv = some da.Disk.ID := by
  unfold DataVolumes at hdv
  rw [hvm] at hdv
  simp only at hdv
  rcases dataVolumesLoop_mem r vm secret configMap r.storageMap [] dv.Spec hdv with
    h | ⟨e, he, sd, hsd, da, hda, hmatch, hspec⟩
  · exact absurd h (List.not_mem_nil _)
  · refine ⟨e, he, sd, hsd, da, hda, hmatch, hspec, ?_⟩
    unfold ResolveDataVolumeIdentifier
    rw [hspec]
    rfl

/-- C8 (witness): the data volume `dv-0` built from the only spec of the example VM under the
mapping `[A]` resolves to the disk id `d0`. -/
theorem ResolveDataVolumeIdentifier_DataVolumes_witness :
    ∃ e ∈ (exampleBuilder [pairTo "A"] []).storageMap, ∃ sd,
      (exampleBuilder [pairTo "A"] []).findStorageDomain e.Source = .ok sd ∧
      ∃ da ∈ exampleVM.DiskAttachments, da.Disk.StorageDomain = sd.ID ∧
        (dvSpec "https://engine/ovirt-engine/api" {} {}
            { StorageClass := "sc", VolumeMode := "Block", AccessMode := "ReadOnlyMany" }
            { Interface := "sata"
              Disk := { ID := "d0", ProvisionedSize := 5242880, StorageDomain := "A" } }) =
          dvSpec (exampleBuilder [pairTo "A"] []).URL {} {}
            (defaultModes (exampleBuilder [pairTo "A"] []) e.Destination).1 da ∧
        ResolveDataVolumeIdentifier
          { Name := "dv-0"
            Spec := dvSpec "https://engine/ovirt-engine/api" {} {}
              { StorageClass := "sc", VolumeMode := "Block", AccessMode := "ReadOnlyMany" }
              { Interface := "sata"
                Disk := { ID := "d0", ProvisionedSize := 5242880, StorageDomain := "A" } } } =
          some da.Disk.ID :=
  ResolveDataVolumeIdentifier_DataVolumes (exampleBuilder [pairTo "A"] []) { ID := "vm1" } {} {}
    exampleVM (exampleBuilder_findVM _ _)
    { Name := "dv-0"
      Spec := dvSpec "https://engine/ovirt-engine/api" {} {}
        { StorageClass := "sc", VolumeMode := "Block", AccessMode := "ReadOnlyMany" }
        { Interface := "sata"
          Disk := { ID := "d0", ProvisionedSize := 5242880, StorageDomain := "A" } } }
    (by decide)

/-! ## C9: contents and order of the volume specs -/

/-- C9: in every run in which the VM is found, the returned specs are, for the mapping entries
before the first entry with a failing lookup (all entries when no lookup fails), in
mapping-list order and within one entry in disk-attachment order, one spec per attachment on
the storage domain resolved from the entry, whose capacity is the provisioned size of the
disk, whose storage class is that of the entry, whose disk id is that of the attachment, and
whose volume mode and access mode are the defaulted modes of the entry when non-empty and
`Filesystem` and `ReadWriteOnce` otherwise.  When every lookup succeeds, all entries are
covered and no error is returned. -/
theorem DataVolumes_specs (r : Builder) (vmRef : Ref) (secret : Secret)
    (configMap : ConfigMap) (vm : Workload) (hvm : r.findVM vmRef = .ok vm) :
    (DataVolumes r vmRef secret configMap).dvs =
      (processedEntries r).flatMap (fun e =>
        match r.findStorageDomain e.Source with
        | .error _ => []
        | .ok sd =>
          (vm.DiskAttachments.filter (fun d => d.Disk.StorageDomain = sd.ID)).map
            (fun d =>
              { Source :=
                  { Imageio := some { URL := r.URL, DiskID := d.Disk.ID,
                                      SecretRef := secret.Name,
                                      CertConfigMap := configMap.Name } }
                Storage := some
                  { AccessModes :=
                      [if (defaultModes r e.Destination).1.AccessMode ≠ ""
                        then (defaultModes r e.Destination).1.AccessMode else "ReadWriteOnce"]
                    VolumeMode := some
                      (if (defaultModes r e.Destination).1.VolumeMode ≠ ""
                        then (defaultModes r e.Destination).1.VolumeMode else "Filesystem")
                    Resources :=
                      { Requests := [("storage", ⟨d.Disk.ProvisionedSize, "BinarySI"⟩)] }
                    StorageClassName := some e.Destination.StorageClass } })) ∧
    ((∀ e ∈ r.storageMap, (∃ sd, r.findStorageDomain e.Source = .ok sd) ∧
        ∃ sc, r.findStorageClass { Name := e.Destination.StorageClass } = .ok sc) →
      processedEntries r = r.storageMap ∧
      (DataVolumes r vmRef secret configMap).err = none) := by
  constructor
  · unfold DataVolumes
    rw [hvm]
    simp only
    rw [dataVolumesLoop_dvs, List.nil_append]
    unfold processedEntries
    congr 1
    funext e
    cases r.findStorageDomain e.Source with
    | error err => rfl
    | ok sd =>
      simp only
      congr 1
      funext d
      simp only [dvSpec, defaultModes_storageClass, PersistentVolumeFilesystem, ReadWriteOnce,
        ResourceStorage, BinarySI]
  · intro hok
    refine ⟨processedEntries_eq_of_ok r hok, ?_⟩
    by_contra hne
    obtain h1 | ⟨e, he, h2⟩ := (DataVolumes_err_iff_aux r vmRef secret configMap).1 hne
    · obtain ⟨err, h1⟩ := h1
      rw [hvm] at h1
      cases h1
    · obtain ⟨⟨sd, hsd⟩, sc, hsc⟩ := hok e he
      rcases h2 with ⟨err, h2⟩ | ⟨err, h2⟩
      · rw [hsd] at h2; cases h2
      · rw [hsc] at h2; cases h2

/-- C9 (witness): under the mapping `[A, Z]`, where the storage domain `Z` is absent from the
inventory, the example VM yields one spec, for disk `d0` and the entry `A`, with the modes
`Block` and `ReadOnlyMany` of the provisioner; it is returned next to the lookup error. -/
theorem DataVolumes_specs_witness :
    (DataVolumes (exampleBuilder [pairTo "A", pairTo "Z"] []) { ID := "vm1" } {} {}).dvs =
      [{ Source :=
            { Imageio := some { URL := "https://engine/ovirt-engine/api", DiskID := "d0",
                                SecretRef := "", CertConfigMap := "" } }
         Storage := some
            { AccessModes := ["ReadOnlyMany"]
              VolumeMode := some "Block"
              Resources := { Requests := [("storage", ⟨5242880, "BinarySI"⟩)] }
              StorageClassName := some "sc" } }] :=
  ((DataVolumes_specs (exampleBuilder [pairTo "A", pairTo "Z"] []) { ID := "vm1" } {} {}
    exampleVM (exampleBuilder_findVM _ _)).1).trans (by decide)

/-! ## C10: `defaultModes` on an entry with both modes set -/

/-- C10 (as stated, refuted): on an entry with both modes set whose storage class is absent
from the destination inventory, `defaultModes` returns an error. -/
theorem defaultModes_both_set_counterexample :
    ¬ ∀ (r : Builder) (dm : DestinationStorage), dm.VolumeMode ≠ "" → dm.AccessMode ≠ "" →
        defaultModes r dm = (dm, none) := by
  intro h
  have h2 := h (exampleBuilder [] [])
    { StorageClass := "missing", VolumeMode := "Block", AccessMode := "ReadWriteMany" }
    (by decide) (by decide)
  revert h2
  decide

/-- C10 (amended): on an entry with both modes set, `defaultModes` leaves the entry unchanged,
and it returns no error exactly when the storage-class lookup succeeds; when the lookup fails
it returns what `liberr.Wrap` returns for the error of the lookup, with no context. -/
theorem defaultModes_both_set (r : Builder) (dm : DestinationStorage)
    (hv : dm.VolumeMode ≠ "") (ha : dm.AccessMode ≠ "") :
    (defaultModes r dm).1 = dm ∧
    ((defaultModes r dm).2 = none ↔
      ∃ sc, r.findStorageClass { Name := dm.StorageClass } = .ok sc) ∧
    (∀ err, r.findStorageClass { Name := dm.StorageClass } = .error err →
      (defaultModes r dm).2 = some (r.liberrWrap err [])) := by
  refine ⟨?_, defaultModes_err_none_iff r dm, ?_⟩
  · unfold defaultModes
    cases r.findStorageClass { Name := dm.StorageClass } with
    | error e => rfl
    | ok sc => simp only [hv, ha, or_self, if_false]
  · intro err herr
    unfold defaultModes
    rw [herr]

/-- C10 (witness): an entry with both modes set and the storage class `sc` of the example
inventory is returned unchanged. -/
theorem defaultModes_both_set_witness :
    (defaultModes (exampleBuilder [] [])
      { StorageClass := "sc", VolumeMode := "Block", AccessMode := "ReadWriteMany" }).1 =
      { StorageClass := "sc", VolumeMode := "Block", AccessMode := "ReadWriteMany" } :=
  (defaultModes_both_set (exampleBuilder [] [])
    { StorageClass := "sc", VolumeMode := "Block", AccessMode := "ReadWriteMany" }
    (by decide) (by decide)).1

/-! ## C11: the frame of `defaultModes` -/

/-- C11: `defaultModes` never changes the storage-class name, never changes a volume mode or
an access mode that was non-empty on entry, and leaves the whole entry unchanged when the
storage-class lookup fails or the provisioner of the storage class is not a key of the loaded
provisioners. -/
theorem defaultModes_frame (r : Builder) (dm : DestinationStorage) :
    (defaultModes r dm).1.StorageClass = dm.StorageClass ∧
    (dm.VolumeMode ≠ "" → (defaultModes r dm).1.VolumeMode = dm.VolumeMode) ∧
    (dm.AccessMode ≠ "" → (defaultModes r dm).1.AccessMode = dm.AccessMode) ∧
    ((∀ sc, r.findStorageClass { Name := dm.StorageClass } = .ok sc →
        r.provisioners sc.Object.Provisioner = none) → (defaultModes r dm).1 = dm) := by
  refine ⟨defaultModes_storageClass r dm, ?_, ?_, ?_⟩
  · intro hv
    unfold defaultModes
    cases r.findStorageClass { Name := dm.StorageClass } with
    | error e => rfl
    | ok sc =>
      simp only
      split
      · split
        · simp only [hv, if_false]
          split <;> rfl
        · rfl
      · rfl
  · intro ha
    unfold defaultModes
    cases r.findStorageClass { Name := dm.StorageClass } with
    | error e => rfl
    | ok sc =>
      simp only
      split
      · split
        · simp only
          split
          · simp only [ha, if_false]
          · simp only [ha, if_false]
        · rfl
      · rfl
  · intro hp
    unfold defaultModes
    cases hsc : r.findStorageClass { Name := dm.StorageClass } with
    | error e => rfl
    | ok sc =>
      simp only [hp sc hsc]
      split <;> rfl

/-- C11 (witness): an entry with the access mode set and the volume mode unset keeps its
access mode. -/
theorem defaultModes_frame_witness :
    (defaultModes (exampleBuilder [] [])
      { StorageClass := "sc", VolumeMode := "", AccessMode := "ReadWriteMany" }).1.AccessMode =
      "ReadWriteMany" :=
  (defaultModes_frame (exampleBuilder [] [])
    { StorageClass := "sc", VolumeMode := "", AccessMode := "ReadWriteMany" }).2.2.1 (by decide)

/-! ## C12: the OS class -/

/-- C12: the OS class of a guest-OS identifier `s` is the table value when `s` is a key of
`osMap`; otherwise `rhel8.1` when `s` contains `linux` or `rhel`; otherwise `win10` when `s`
contains `win`; otherwise `unknown`.  The three examples of the specification hold, and the
returned label set maps the OS label of that class to `true`. -/
theorem templateOS_spec (s : String) :
    (∀ v, (s, v) ∈ osMap → templateOS s = v) ∧
    ((∀ v, (s, v) ∉ osMap) → (occursIn "linux" s ∨ occursIn "rhel" s) →
      templateOS s = "rhel8.1") ∧
    ((∀ v, (s, v) ∉ osMap) → ¬ (occursIn "linux" s ∨ occursIn "rhel" s) → occursIn "win" s →
      templateOS s = "win10") ∧
    ((∀ v, (s, v) ∉ osMap) → ¬ (occursIn "linux" s ∨ occursIn "rhel" s) → ¬ occursIn "win" s →
      templateOS s = "unknown") ∧
    templateOS "rhel_7x64" = "rhel7.7" ∧
    templateOS "some_custom_linux_build" = "rhel8.1" ∧
    templateOS "xyz123" = "unknown" ∧
    ∀ (r : Builder) (vmRef : Ref) (vm : Workload), r.findVM vmRef = .ok vm → vm.OSType = s →
      mapGet (TemplateLabels r vmRef).1 ("os.template.kubevirt.io/" ++ templateOS s) =
        some "true" := by
  refine ⟨?_, ?_, ?_, ?_, by decide, by decide, by decide, ?_⟩
  · intro v hv
    unfold templateOS
    rw [mapGet_of_mem osMap s v osMap_keys_nodup hv]
  · intro hno hlin
    unfold templateOS
    rw [mapGet_none_of_not_mem osMap s hno]
    simp only [← stringsContains_iff] at hlin
    simp only [Bool.or_eq_true, hlin, if_true, DefaultLinux]
  · intro hno hlin hwin
    unfold templateOS
    rw [mapGet_none_of_not_mem osMap s hno]
    simp only [← stringsContains_iff] at hlin hwin
    simp only [Bool.or_eq_true, hlin, hwin, if_true, if_false, DefaultWindows]
  · intro hno hlin hwin
    unfold templateOS
    rw [mapGet_none_of_not_mem osMap s hno]
    simp only [← stringsContains_iff] at hlin hwin
    simp only [Bool.or_eq_true, hlin, hwin, if_false, Unknown, Bool.false_eq_true]
  · intro r vmRef vm hvm hs
    rw [TemplateLabels_ok r vmRef vm hvm, hs]
    simp [mapGet, TemplateOSLabel]

/-- C12 (witness): the key `rhel_8x64` of the table has the class `rhel8.1`. -/
theorem templateOS_spec_witness : templateOS "rhel_8x64" = "rhel8.1" :=
  (templateOS_spec "rhel_8x64").1 "rhel8.1" (by decide)

/-! ## C13: `TemplateLabels` is total -/

/-- C13: for every VM whose lookup succeeds, whatever its guest-OS identifier,
`TemplateLabels` returns no error and a label set of exactly three entries with distinct keys,
all of value `true`: the workload label, the flavor label, and the OS label of a class that is
a value of `osMap`, `rhel8.1`, `win10` or `unknown`. -/
theorem TemplateLabels_total (r : Builder) (vmRef : Ref) (vm : Workload)
    (hvm : r.findVM vmRef = .ok vm) :
    (TemplateLabels r vmRef).2 = none ∧
    (TemplateLabels r vmRef).1.length = 3 ∧
    ((TemplateLabels r vmRef).1.map Prod.fst).Nodup ∧
    (∀ p ∈ (TemplateLabels r vmRef).1, p.2 = "true") ∧
    mapGet (TemplateLabels r vmRef).1 "workload.template.kubevirt.io/server" = some "true" ∧
    mapGet (TemplateLabels r vmRef).1 "flavor.template.kubevirt.io/medium" = some "true" ∧
    ∃ os, (os ∈ osMap.map Prod.snd ∨ os = "rhel8.1" ∨ os = "win10" ∨ os = "unknown") ∧
      mapGet (TemplateLabels r vmRef).1 ("os.template.kubevirt.io/" ++ os) = some "true" := by
  have h1 := TemplateOSLabel_ne_workload (templateOS vm.OSType)
  have h2 := TemplateOSLabel_ne_flavor (templateOS vm.OSType)
  have h3 : TemplateWorkloadLabel ≠ TemplateFlavorLabel := by decide
  rw [TemplateLabels_ok r vmRef vm hvm]
  refine ⟨rfl, rfl, ?_, ?_, ?_, ?_, ?_⟩
  · simp [h1, h2, h3]
  · simp
  · have : mapGet [(TemplateOSLabel (templateOS vm.OSType), "true"),
        (TemplateWorkloadLabel, "true"), (TemplateFlavorLabel, "true")] TemplateWorkloadLabel =
        some "true" := by simp [mapGet, h1]
    exact this
  · have : mapGet [(TemplateOSLabel (templateOS vm.OSType), "true"),
        (TemplateWorkloadLabel, "true"), (TemplateFlavorLabel, "true")] TemplateFlavorLabel =
        some "true" := by simp [mapGet, h2, h3]
    exact this
  · exact ⟨templateOS vm.OSType, templateOS_class _, by simp [mapGet, TemplateOSLabel]⟩

/-- C13 (witness): the labels of the example VM, whose guest-OS identifier is empty. -/
theorem TemplateLabels_total_witness :
    (TemplateLabels (exampleBuilder [] []) { ID := "vm1" }).2 = none ∧
    (TemplateLabels (exampleBuilder [] []) { ID := "vm1" }).1.length = 3 :=
  ⟨(TemplateLabels_total (exampleBuilder [] []) { ID := "vm1" } exampleVM
      (exampleBuilder_findVM _ _)).1,
   (TemplateLabels_total (exampleBuilder [] []) { ID := "vm1" } exampleVM
      (exampleBuilder_findVM _ _)).2.1⟩

/-! ## C14: firmware bootloader -/

/-- C14: with the effective BIOS type being the BIOS type of the VM, or that of the cluster
when the VM says `cluster_default`: `mapFirmware` sets the EFI bootloader and the SMM feature
with `Enabled = true` when the effective type is `q35_ovmf`, and the BIOS bootloader and no SMM
feature otherwise; exactly one of the bootloader fields `EFI` and `BIOS` is set. -/
theorem mapFirmware_bootloader (vm : Workload) (cluster : Cluster)
    (object : cnv.VirtualMachineInstanceTemplateSpec) :
    (mapFirmware vm cluster object).Firmware.bind (fun fw => fw.Bootloader) =
      some (if (if vm.BIOS = "cluster_default" then cluster.BiosType else vm.BIOS) = "q35_ovmf"
        then { EFI := some {}, BIOS := none } else { BIOS := some {}, EFI := none }) ∧
    (mapFirmware vm cluster object).Features =
      some (if (if vm.BIOS = "cluster_default" then cluster.BiosType else vm.BIOS) = "q35_ovmf"
        then { SMM := some { Enabled := some true } } else { SMM := none }) ∧
    ∃ b, (mapFirmware vm cluster object).Firmware.bind (fun fw => fw.Bootloader) = some b ∧
      (b.EFI.isSome ≠ b.BIOS.isSome) := by
  unfold mapFirmware
  simp only [ClusterDefault, Q35Ovmf]
  by_cases h1 : vm.BIOS = "cluster_default"
  · by_cases h2 : cluster.BiosType = "q35_ovmf" <;> simp [h1, h2]
  · by_cases h3 : vm.BIOS = "q35_ovmf" <;> simp [h1, h3]

/-! ## C15: firmware serial number -/

/-- C15 (as stated, refuted): for a VM whose recorded serial number and id are both empty,
the firmware serial number set by `mapFirmware` is empty. -/
theorem mapFirmware_serial_counterexample :
    ¬ ∀ (vm : Workload) (cluster : Cluster) (object : cnv.VirtualMachineInstanceTemplateSpec),
        ∃ fw, (mapFirmware vm cluster object).Firmware = some fw ∧ fw.Serial ≠ "" := by
  intro h
  obtain ⟨fw, h1, h2⟩ := h { ID := "", SerialNumber := "", BIOS := "q35_ovmf" } {} {}
  have h3 : (mapFirmware { ID := "", SerialNumber := "", BIOS := "q35_ovmf" } {} {}).Firmware =
      some { Serial := "", Bootloader := some { EFI := some {} } } := by decide
  rw [h3] at h1
  simp only [Option.some.injEq] at h1
  exact h2 (by rw [← h1])

/-- C15 (amended): the firmware serial number set by `mapFirmware` is the recorded serial
number of the VM when that is non-empty and the id of the VM otherwise; it is non-empty
whenever the id of the VM is non-empty. -/
theorem mapFirmware_serial (vm : Workload) (cluster : Cluster)
    (object : cnv.VirtualMachineInstanceTemplateSpec) :
    (mapFirmware vm cluster object).Firmware.map (fun fw => fw.Serial) =
      some (if vm.SerialNumber ≠ "" then vm.SerialNumber else vm.ID) ∧
    (vm.ID ≠ "" → ∃ fw, (mapFirmware vm cluster object).Firmware = some fw ∧ fw.Serial ≠ "") := by
  unfold mapFirmware
  simp only
  by_cases hs : vm.SerialNumber = "" <;>
    by_cases h : (if vm.BIOS = ClusterDefault then cluster.BiosType else vm.BIOS) = Q35Ovmf <;>
    simp [hs, h]

/-- C15 (witness): the example VM has no recorded serial number and the id `vm1`. -/
theorem mapFirmware_serial_witness :
    ∃ fw, (mapFirmware exampleVM {} {}).Firmware = some fw ∧ fw.Serial ≠ "" :=
  (mapFirmware_serial exampleVM {} {}).2 (by decide)

/-! ## C16: disk bus -/

/-- C16: the disk device appended by `mapDisks` for the attachment at position `k` has the
bus `scsi` when the interface of the attachment is `virtio_scsi`, `sata` when it is `sata`,
and `virtio` for every other string; neither the data volumes nor a storage mapping enter the
disk devices. -/
theorem mapDisks_bus (vm : Workload) (dataVolumes : List DataVolume)
    (object out : cnv.VirtualMachineInstanceTemplateSpec)
    (h : mapDisks vm dataVolumes object = some out) :
    out.Disks = object.Disks ++ vm.DiskAttachments.enum.map (fun p =>
      ({ Name := volumeName p.1
         DiskDevice := { Disk := some { Bus :=
           if p.2.Interface = "virtio_scsi" then "scsi"
           else if p.2.Interface = "sata" then "sata" else "virtio" } } } : cnv.Disk)) := by
  unfold mapDisks at h
  cases hm : dvMapLoop dataVolumes (fun _ => none) with
  | none => rw [hm] at h; cases h
  | some m =>
    rw [hm] at h
    exact (mapDisksLoop_spec m 0 vm.DiskAttachments object out h).2

/-- C16 (witness): the disk devices of the example VM (interfaces `sata` and `virtio`). -/
theorem mapDisks_bus_witness :
    ({ Volumes :=
        [ { Name := "vol-0", VolumeSource := { DataVolume := some { Name := "dv-1" } } },
          { Name := "vol-1", VolumeSource := { DataVolume := some { Name := "dv-0" } } } ]
       Disks :=
        [ { Name := "vol-0", DiskDevice := { Disk := some { Bus := "sata" } } },
          { Name := "vol-1", DiskDevice := { Disk := some { Bus := "virtio" } } } ] } :
      cnv.VirtualMachineInstanceTemplateSpec).Disks =
      [] ++ exampleVM.DiskAttachments.enum.map (fun p =>
        ({ Name := volumeName p.1
           DiskDevice := { Disk := some { Bus :=
             if p.2.Interface = "virtio_scsi" then "scsi"
             else if p.2.Interface = "sata" then "sata" else "virtio" } } } : cnv.Disk)) :=
  mapDisks_bus exampleVM
    (dataVolumesOf
      (DataVolumes (exampleBuilder [pairTo "B", pairTo "A"] []) { ID := "vm1" } {} {}).dvs)
    {} _ (by decide)

/-! ## C17: when `DataVolumes` returns an error -/

/-- C17: `DataVolumes` returns an error if and only if the VM lookup fails or, for some entry
of the storage mapping, the storage-domain lookup or the storage-class lookup fails. -/
theorem DataVolumes_err_iff (r : Builder) (vmRef : Ref) (secret : Secret)
    (configMap : ConfigMap) :
    (DataVolumes r vmRef secret configMap).err ≠ none ↔
      ((∃ err, r.findVM vmRef = .error err) ∨
        ∃ e ∈ r.storageMap, (∃ err, r.findStorageDomain e.Source = .error err) ∨
          (∃ err, r.findStorageClass { Name := e.Destination.StorageClass } = .error err)) := by
  unfold DataVolumes
  cases hvm : r.findVM vmRef with
  | error err => simp
  | ok vm =>
    simp only [dataVolumesLoop_err_iff, reduceCtorEq, exists_false, false_or]

/-- C17 (witness): the only mapping entry of `missingClassBuilder` is on storage domain `B`,
where the VM has no disk; its storage class is absent, and `DataVolumes` returns an error. -/
theorem DataVolumes_err_iff_witness :
    (DataVolumes missingClassBuilder {} {} {}).err ≠ none :=
  (DataVolumes_err_iff missingClassBuilder {} {} {}).2
    (Or.inr ⟨{ Source := { ID := "B" }, Destination := { StorageClass := "missing" } },
      by decide, Or.inr ⟨.lookup "storage class", rfl⟩⟩)

/-! ## C18: the interface of an emitted entry -/

/-- C18: when all network lookups succeed and `nic` is the first NIC of the VM whose profile
is on the network resolved from mapping entry `i`, `mapNetworks` emits an interface and a
network named `net-<i>`; that interface has the model `virtio` and the MAC address of `nic`;
for the destination type `pod` the network is a pod network and the interface is masqueraded;
for `multus` the network is the multus reference joined from namespace and name, and the
interface uses SR-IOV when the profile of `nic` is pass-through and a bridge otherwise. -/
theorem mapNetworks_entry (r : Builder) (vm : Workload)
    (object : cnv.VirtualMachineInstanceTemplateSpec) (netOf : NetworkPair → Network)
    (hnet : ∀ e ∈ r.networkMap, r.findNetwork e.Source = .ok (netOf e))
    (i : Nat) (e : NetworkPair) (nic : NIC) (hi : r.networkMap[i]? = some e)
    (hnic : vm.NICs.find? (fun x => decide (x.Profile.Network = (netOf e).ID)) = some nic) :
    (∃ f ∈ (mapNetworks r vm object).1.Interfaces, f.Name = networkName i) ∧
    (∃ n ∈ (mapNetworks r vm object).1.Networks, n.Name = networkName i) ∧
    (∀ f ∈ (mapNetworks r vm object).1.Interfaces, f.Name = networkName i →
      f.Model = "virtio" ∧ f.MacAddress = nic.Mac ∧
      (e.Destination.Type_ = "pod" →
        f.Masquerade = some {} ∧ f.SRIOV = none ∧ f.Bridge = none) ∧
      (e.Destination.Type_ = "multus" → nic.Profile.PassThrough = true →
        f.SRIOV = some {} ∧ f.Masquerade = none ∧ f.Bridge = none) ∧
      (e.Destination.Type_ = "multus" → nic.Profile.PassThrough = false →
        f.Bridge = some {} ∧ f.Masquerade = none ∧ f.SRIOV = none)) ∧
    (∀ n ∈ (mapNetworks r vm object).1.Networks, n.Name = networkName i →
      (e.Destination.Type_ = "pod" → n.Pod = some {} ∧ n.Multus = none) ∧
      (e.Destination.Type_ = "multus" → n.Pod = none ∧
        n.Multus = some
          { NetworkName := r.pathJoin e.Destination.Namespace e.Destination.Name })) := by
  obtain ⟨hN, hI⟩ := mapNetworks_lists r vm object netOf hnet
  have hq : mapNetworksNICs (netOf e) vm.NICs = (true, nic.Profile.PassThrough, nic.Mac) := by
    rw [mapNetworksNICs_eq_find, hnic]
  have hmem : (i, e) ∈ r.networkMap.enum.filter
      (fun p => (mapNetworksNICs (netOf p.2) vm.NICs).1) :=
    List.mem_filter.2 ⟨List.mem_enum_iff_getElem?.2 hi, by simp [hq]⟩
  have hne : ¬ ("multus" : String) = "pod" := by decide
  refine ⟨?_, ?_, ?_, ?_⟩
  · rw [hI]
    exact ⟨_, List.mem_map.2 ⟨(i, e), hmem, rfl⟩, networkEntry_snd_name _ _ _ _ _⟩
  · rw [hN]
    exact ⟨_, List.mem_map.2 ⟨(i, e), hmem, rfl⟩, networkEntry_fst_name _ _ _ _ _⟩
  · intro f hf hname
    rw [hI] at hf
    obtain ⟨p, hp, hfp⟩ := List.mem_map.1 hf
    have hpe : p = (i, e) := by
      apply eq_of_mem_enum_filter r.networkMap _ i e hi p hp
      rw [← hname, ← hfp, networkEntry_snd_name]
    subst hpe
    simp only [hq] at hfp
    subst hfp
    unfold networkEntry
    simp only [Pod, Multus, Virtio]
    refine ⟨?_, ?_, ?_, ?_, ?_⟩
    · split
      · rfl
      · split
        · split <;> rfl
        · rfl
    · split
      · rfl
      · split
        · split <;> rfl
        · rfl
    · intro ht
      simp [ht]
    · intro ht hpt
      simp [ht, hpt, hne]
    · intro ht hpt
      simp [ht, hpt, hne]
  · intro n hn hname
    rw [hN] at hn
    obtain ⟨p, hp, hnp⟩ := List.mem_map.1 hn
    have hpe : p = (i, e) := by
      apply eq_of_mem_enum_filter r.networkMap _ i e hi p hp
      rw [← hname, ← hnp, networkEntry_fst_name]
    subst hpe
    simp only [hq] at hnp
    subst hnp
    unfold networkEntry
    simp only [Pod, Multus]
    constructor
    · intro ht
      simp [ht]
    · intro ht
      simp [ht, hne]

/-- C18 (witness): the pass-through NIC of the example VM under a `multus` entry. -/
theorem mapNetworks_entry_witness :
    ∃ f ∈ (mapNetworks (exampleBuilder [] [netPairTo "multus"]) exampleVM {}).1.Interfaces,
      f.Name = networkName 0 :=
  (mapNetworks_entry (exampleBuilder [] [netPairTo "multus"]) exampleVM {}
    (fun _ => { ID := "n1" }) (exampleBuilder_findNetwork _ _ (by decide)) 0
    (netPairTo "multus")
    { Mac := "00:1a:4a:16:01:51", Profile := { Network := "n1", PassThrough := true } }
    (by decide) (by decide)).1

/-! ## C19: consistency of the machine spec -/

/-- C19: whenever `mapDisks` completes on a fresh template, the volumes and the disk devices
are as many as the disk attachments, the volume and the disk device at position `k` are both
named `vol-<k>`, the names are pairwise distinct, and the volume at position `k` references
the name of the last data volume of the input whose imageio disk id is the disk id of the
attachment at position `k`. -/
theorem mapDisks_consistent (vm : Workload) (dataVolumes : List DataVolume)
    (out : cnv.VirtualMachineInstanceTemplateSpec)
    (h : mapDisks vm dataVolumes {} = some out) :
    out.Volumes.length = vm.DiskAttachments.length ∧
    out.Disks.length = vm.DiskAttachments.length ∧
    (∀ k, k < vm.DiskAttachments.length →
      (out.Volumes[k]?).map (fun v => v.Name) = some (volumeName k) ∧
      (out.Disks[k]?).map (fun d => d.Name) = some (volumeName k)) ∧
    (out.Volumes.map (fun v => v.Name)).Nodup ∧
    (out.Disks.map (fun d => d.Name)).Nodup ∧
    ∀ (k : Nat) (da : DiskAttachment), vm.DiskAttachments[k]? = some da →
      ∃ dv : DataVolume, lastDataVolume dataVolumes da.Disk.ID = some dv ∧
        (out.Volumes[k]?).map (fun v => v.VolumeSource.DataVolume) =
          some (some ({ Name := dv.Name } : cnv.DataVolumeSource)) := by
  unfold mapDisks at h
  cases hm : dvMapLoop dataVolumes (fun _ => none) with
  | none => rw [hm] at h; cases h
  | some m =>
    rw [hm] at h
    simp only at h
    obtain ⟨hv, hd⟩ := mapDisksLoop_spec m 0 vm.DiskAttachments {} out h
    have hsome := mapDisksLoop_dv_some m 0 vm.DiskAttachments {} out h
    have hlast := dvMapLoop_spec dataVolumes (fun _ => none) m hm
    simp only [List.nil_append] at hv hd
    have hvn : out.Volumes.map (fun v => v.Name) =
        (List.range vm.DiskAttachments.length).map volumeName := by
      rw [hv, List.map_map, ← List.enum_map_fst, List.map_map]; rfl
    have hdn : out.Disks.map (fun d => d.Name) =
        (List.range vm.DiskAttachments.length).map volumeName := by
      rw [hd, List.map_map, ← List.enum_map_fst, List.map_map]; rfl
    have hvl : out.Volumes.length = vm.DiskAttachments.length := by
      rw [hv]; simp
    have hdl : out.Disks.length = vm.DiskAttachments.length := by
      rw [hd]; simp
    refine ⟨hvl, hdl, ?_, ?_, ?_, ?_⟩
    · intro k hk
      constructor
      · rw [← List.getElem?_map, hvn, List.getElem?_map, List.getElem?_range hk]
        rfl
      · rw [← List.getElem?_map, hdn, List.getElem?_map, List.getElem?_range hk]
        rfl
    · rw [hvn]; exact volumeName_range_nodup _
    · rw [hdn]; exact volumeName_range_nodup _
    · intro k da hk
      have hmem : da ∈ vm.DiskAttachments := List.getElem?_mem hk
      obtain ⟨dv, hdv⟩ := hsome da hmem
      have h1 := hlast da.Disk.ID
      rw [hdv] at h1
      cases hl : lastDataVolume dataVolumes da.Disk.ID with
      | none => rw [hl] at h1; cases h1
      | some dv2 =>
        rw [hl] at h1
        simp only [Option.some.injEq] at h1
        subst h1
        refine ⟨dv, rfl, ?_⟩
        rw [hv, List.getElem?_map, ← List.enum, List.getElem?_enum, hk]
        simp [hdv]

/-- C19 (witness): the example VM with the data volumes produced under the mapping
`[B, A]`. -/
theorem mapDisks_consistent_witness :
    ({ Volumes :=
        [ { Name := "vol-0", VolumeSource := { DataVolume := some { Name := "dv-1" } } },
          { Name := "vol-1", VolumeSource := { DataVolume := some { Name := "dv-0" } } } ]
       Disks :=
        [ { Name := "vol-0", DiskDevice := { Disk := some { Bus := "sata" } } },
          { Name := "vol-1", DiskDevice := { Disk := some { Bus := "virtio" } } } ] } :
      cnv.VirtualMachineInstanceTemplateSpec).Volumes.length =
      exampleVM.DiskAttachments.length :=
  (mapDisks_consistent exampleVM
    (dataVolumesOf
      (DataVolumes (exampleBuilder [pairTo "B", pairTo "A"] []) { ID := "vm1" } {} {}).dvs)
    _ (by decide)).1

/-! ## C20: `DataVolumes` on error -/

/-- C20: when the VM is found, the lookups of the mapping entries before entry `e` succeed
and a lookup of `e` fails, `DataVolumes` returns the error of that lookup (the storage-domain
error as it is, the storage-class error as `liberr.Wrap` returns it, with no context, from
`defaultModes`) together with exactly the specs produced for the entries before `e`, and leaves the storage mapping with the modes of
the entries before `e` filled in by `defaultModes` and the other entries unchanged. -/
theorem DataVolumes_on_error (r : Builder) (vmRef : Ref) (secret : Secret)
    (configMap : ConfigMap) (vm : Workload) (sdOf : StoragePair → StorageDomain)
    (pre post : List StoragePair) (e : StoragePair)
    (hvm : r.findVM vmRef = .ok vm)
    (hmap : r.storageMap = pre ++ e :: post)
    (hsd : ∀ x ∈ pre, r.findStorageDomain x.Source = .ok (sdOf x))
    (hsc : ∀ x ∈ pre, ∃ sc, r.findStorageClass { Name := x.Destination.StorageClass } = .ok sc) :
    (∀ err, r.findStorageDomain e.Source = .error err →
      (DataVolumes r vmRef secret configMap).err = some err) ∧
    (∀ sd err, r.findStorageDomain e.Source = .ok sd →
      r.findStorageClass { Name := e.Destination.StorageClass } = .error err →
      (DataVolumes r vmRef secret configMap).err = some (r.liberrWrap err [])) ∧
    (((∃ err, r.findStorageDomain e.Source = .error err) ∨
      (∃ err, r.findStorageClass { Name := e.Destination.StorageClass } = .error err)) →
      (DataVolumes r vmRef secret configMap).dvs =
        pre.flatMap (fun x =>
          (vm.DiskAttachments.filter (fun da => da.Disk.StorageDomain = (sdOf x).ID)).map
            (dvSpec r.URL secret configMap (defaultModes r x.Destination).1)) ∧
      (DataVolumes r vmRef secret configMap).storageMap =
        pre.map (fun x =>
          ({ x with Destination := (defaultModes r x.Destination).1 } : StoragePair))
          ++ e :: post) := by
  have hD : DataVolumes r vmRef secret configMap =
      dataVolumesLoop r vm secret configMap (pre ++ e :: post) [] := by
    unfold DataVolumes
    rw [hvm, hmap]
  rw [hD, dataVolumesLoop_append_ok r vm secret configMap sdOf pre (e :: post) [] hsd hsc]
  simp only [List.nil_append]
  refine ⟨?_, ?_, ?_⟩
  · intro err herr
    unfold dataVolumesLoop
    rw [herr]
  · intro sd err hsd2 herr
    unfold dataVolumesLoop
    rw [hsd2]
    simp only [defaultModes_of_error r e.Destination err herr]
  · intro hfail
    cases hsd2 : r.findStorageDomain e.Source with
    | error err =>
      unfold dataVolumesLoop
      rw [hsd2]
      exact ⟨rfl, rfl⟩
    | ok sd =>
      rcases hfail with ⟨err, herr⟩ | ⟨err, herr⟩
      · rw [hsd2] at herr; cases herr
      · unfold dataVolumesLoop
        rw [hsd2]
        simp only [defaultModes_of_error r e.Destination err herr]
        constructor <;> trivial

/-- C20 (witness): under the mapping `[A, Z]`, where the storage domain `Z` is absent from
the inventory, `DataVolumes` returns the lookup error next to the spec already produced for
the entry `A`, whose modes stay filled in. -/
theorem DataVolumes_on_error_witness :
    (DataVolumes (exampleBuilder [pairTo "A", pairTo "Z"] []) { ID := "vm1" } {} {}).err =
      some (.lookup "storage domain") ∧
    (DataVolumes (exampleBuilder [pairTo "A", pairTo "Z"] []) { ID := "vm1" } {} {}).dvs.length
      = 1 ∧
    (DataVolumes (exampleBuilder [pairTo "A", pairTo "Z"] []) { ID := "vm1" } {} {}).storageMap =
      [ { Source := { ID := "A" }
          Destination :=
            { StorageClass := "sc", VolumeMode := "Block", AccessMode := "ReadOnlyMany" } },
        pairTo "Z" ] :=
  ⟨(DataVolumes_on_error (exampleBuilder [pairTo "A", pairTo "Z"] []) { ID := "vm1" } {} {}
      exampleVM (fun e => { ID := e.Source.ID }) [pairTo "A"] [] (pairTo "Z")
      (exampleBuilder_findVM _ _) rfl
      (exampleBuilder_findStorageDomain_of _ _ _ (by decide))
      (exampleBuilder_findStorageClass_of _ _ _ (by decide))).1 _ rfl,
   by decide,
   ((DataVolumes_on_error (exampleBuilder [pairTo "A", pairTo "Z"] []) { ID := "vm1" } {} {}
      exampleVM (fun e => { ID := e.Source.ID }) [pairTo "A"] [] (pairTo "Z")
      (exampleBuilder_findVM _ _) rfl
      (exampleBuilder_findStorageDomain_of _ _ _ (by decide))
      (exampleBuilder_findStorageClass_of _ _ _ (by decide))).2.2
      (Or.inl ⟨.lookup "storage domain", rfl⟩)).2.trans (by decide)⟩

end Ovirt
